import Mathlib

/-!
# Armor layering penalties and the layering screen (`src/armor_layers.cpp`)

A shallow embedding of `get_item_penalties`, `item_penalties::badness` and of the
parts of the interactive loop of `show_armor_layers_ui` that change the wear order,
followed by theorems about them.
-/

namespace ArmorLayers

/-! ## Data model -/

/-- Modelled from the spec: the enum `layer_level` is declared in `enums.h`, which is not
part of the sources at hand.  The spec calls it "an enumerated, totally ordered set"; the
enumerators are taken in the order of the `switch` in `draw_mid_pane`, and the order of the
enum is the order of the natural numbers. -/
abbrev layer_level := Nat

def PERSONAL_LAYER : layer_level := 0

def UNDERWEAR_LAYER : layer_level := 1

def REGULAR_LAYER : layer_level := 2

def WAIST_LAYER : layer_level := 3

def OUTER_LAYER : layer_level := 4

def BELTED_LAYER : layer_level := 5

def AURA_LAYER : layer_level := 6

/-- The item flags that `armor_layers.cpp` tests with `has_flag`. -/
inductive flag_id where
  | PERSONAL | SKINTIGHT | WAIST | OUTER | BELTED | AURA
  | FIT | VARSIZE | HOOD | POCKETS | WATERPROOF | WATER_FRIENDLY | FANCY | SUPER_FANCY
  | FLOTATION | OVERSIZE | SWIM_GOGGLES | SEMITANGIBLE | COMPACT | HIDDEN
deriving DecidableEq, Repr

/-- A `bodypart_id` together with the two facts of the `body_part_type` it resolves to that
`get_item_penalties` reads: the legacy `token` (`_bp->token`) and whether its string id is
the null id (`_bp.id().is_null()`).  `idx` is the integer id itself. -/
structure bodypart_id where
  idx : Nat
  token : Nat
  is_null : Bool
deriving DecidableEq, Repr

/-- The attributes of an `item` that the layering code queries: `get_layer()`, the body
parts for which `covers` answers true, the flags, and `type_name()`. -/
structure item where
  layer : layer_level
  covered : List bodypart_id
  flags : List flag_id
  name : String
deriving DecidableEq, Repr

def item.get_layer (i : item) : layer_level := i.layer

def item.covers (i : item) (bp : bodypart_id) : Bool := decide (bp ∈ i.covered)

def item.has_flag (i : item) (f : flag_id) : Bool := decide (f ∈ i.flags)

def item.type_name (i : item) : String := i.name

/-- The wearer: the wear-order sequence `worn` (innermost first) and the list returned by
`get_all_body_parts()`. -/
structure Character where
  worn : List item
  all_body_parts : List bodypart_id
deriving DecidableEq, Repr

def Character.get_all_body_parts (c : Character) : List bodypart_id := c.all_body_parts

/-- Modelled from the spec: `is_compact` is declared in `clothing_utils.h`, which is not part
of the sources at hand.  The spec describes the exemption as "items flagged can overlap or
compact", so this instance reads the `COMPACT` flag.  The embedding of
`get_item_penalties` takes `is_compact` as a parameter; this instance is used for concrete
evaluations only. -/
def is_compact_flag (i : item) (_c : Character) : Bool := i.has_flag flag_id.COMPACT

/-- The struct `item_penalties`; `std::set<std::string>` is a finite set of strings. -/
structure item_penalties where
  body_parts_with_stacking_penalty : List bodypart_id
  body_parts_with_out_of_order_penalty : List bodypart_id
  bad_items_within : Finset String
deriving DecidableEq

/-- `item_penalties::badness`: `!a.empty() + !b.empty()` with the booleans read as 0 / 1. -/
def item_penalties.badness (p : item_penalties) : Nat :=
  (!p.body_parts_with_stacking_penalty.isEmpty).toNat +
    (!p.body_parts_with_out_of_order_penalty.isEmpty).toNat

/-! ## `get_item_penalties` -/

/-- The three locals that the per-part loop of `get_item_penalties` appends to. -/
structure penalty_locals where
  body_parts_with_stacking_penalty : List bodypart_id
  body_parts_with_out_of_order_penalty : List bodypart_id
  lists_of_bad_items_within : List (Finset String)
deriving DecidableEq

/-- The predicate of the `std::count_if` at lines 87-91. -/
def stacking_pred (is_compact : item → Character → Bool) (layer : layer_level)
    (bp : bodypart_id) (c : Character) (i : item) : Bool :=
  i.get_layer == layer && i.covers bp &&
    !(i.has_flag flag_id.SEMITANGIBLE || is_compact i c)

/-- The inner loop at lines 96-101: run over the items before the subject and insert the
`type_name` of each one with a strictly greater layer that covers `bp`. -/
def scan_bad_items_within (layer : layer_level) (bp : bodypart_id) :
    List item → Finset String → Finset String
  | [], acc => acc
  | it :: rest, acc =>
    if it.get_layer > layer && it.covers bp then
      scan_bad_items_within layer bp rest (insert it.type_name acc)
    else
      scan_bad_items_within layer bp rest acc

/-- One iteration of the loop over `c.get_all_body_parts()` (lines 80-106). -/
def penalties_loop_body (is_compact : item → Character → Bool) (worn_item_it : Nat)
    (worn_item : item) (c : Character) (_bp : bodypart_id)
    (st : penalty_locals) (bp : bodypart_id) : penalty_locals :=
  let layer := worn_item.get_layer
  if _bp.token ≠ 0 && _bp.is_null then st
  else if !worn_item.covers bp then st
  else
    let num_items := c.worn.countP (stacking_pred is_compact layer bp c)
    let st1 : penalty_locals :=
      if num_items > 1 then
        { st with body_parts_with_stacking_penalty :=
                    st.body_parts_with_stacking_penalty ++ [bp] }
      else st
    let bad_items_within := scan_bad_items_within layer bp (c.worn.take worn_item_it) ∅
    if bad_items_within ≠ ∅ then
      { st1 with
        body_parts_with_out_of_order_penalty :=
          st1.body_parts_with_out_of_order_penalty ++ [bp]
        lists_of_bad_items_within := st1.lists_of_bad_items_within ++ [bad_items_within] }
    else st1

/-- The body of the `while` loop at lines 111-120: the first two sets are replaced by their
intersection (the vector gets one shorter). -/
def intersect_step : List (Finset String) → List (Finset String)
  | a :: b :: rest => (a ∩ b) :: rest
  | l => l

/-- The loop `while( lists_of_bad_items_within.size() > 1 )` started on the vector
`first :: rest`: as long as `rest` is non-empty the body runs. -/
def intersect_loop_from (first : Finset String) :
    List (Finset String) → List (Finset String)
  | [] => [first]
  | second :: rest => intersect_loop_from (first ∩ second) rest

/-- The `while( lists_of_bad_items_within.size() > 1 )` loop at lines 111-120. -/
def intersect_loop : List (Finset String) → List (Finset String)
  | [] => []
  | first :: rest => intersect_loop_from first rest

/-- The function `get_item_penalties`.  The iterator `worn_item_it` is a position in
`c.worn`; dereferencing a position past the end has no defined result (`none`). -/
def get_item_penalties (is_compact : item → Character → Bool) (worn_item_it : Nat)
    (c : Character) (_bp : bodypart_id) : Option item_penalties :=
  match c.worn[worn_item_it]? with
  | none => none
  | some worn_item =>
    let st := c.get_all_body_parts.foldl
      (penalties_loop_body is_compact worn_item_it worn_item c _bp) ⟨[], [], []⟩
    let lists := intersect_loop st.lists_of_bad_items_within
    let lists := if lists.isEmpty then [∅] else lists
    some ⟨st.body_parts_with_stacking_penalty, st.body_parts_with_out_of_order_penalty,
          lists.headD ∅⟩

/-! ## Vocabulary of the specification -/

/-- The skip at line 81: the queried part has a non-zero token together with a null id. -/
def query_skipped (_bp : bodypart_id) : Prop := _bp.token ≠ 0 ∧ _bp.is_null = true

instance (q : bodypart_id) : Decidable (query_skipped q) := by
  unfold query_skipped
  infer_instance

/-- An item is exempt from stacking when it is flagged `SEMITANGIBLE` ("can overlap") or is
compact. -/
def exempt (is_compact : item → Character → Bool) (c : Character) (x : item) : Prop :=
  x.has_flag flag_id.SEMITANGIBLE = true ∨ is_compact x c = true

/-- The item `x` has layer `layer`, covers `p` and is not exempt. -/
def stacks_on (is_compact : item → Character → Bool) (c : Character) (layer : layer_level)
    (p : bodypart_id) (x : item) : Prop :=
  x.get_layer = layer ∧ x.covers p = true ∧ ¬exempt is_compact c x

instance (is_compact : item → Character → Bool) (c : Character) (x : item) :
    Decidable (exempt is_compact c x) := by
  unfold exempt
  infer_instance

instance (is_compact : item → Character → Bool) (c : Character) (layer : layer_level)
    (p : bodypart_id) (x : item) : Decidable (stacks_on is_compact c layer p x) := by
  unfold stacks_on
  infer_instance

/-- The number of worn items other than the one at position `i` that have layer `layer`,
cover `p` and are not exempt. -/
def count_others (is_compact : item → Character → Bool) (c : Character) (i : Nat)
    (layer : layer_level) (p : bodypart_id) : Nat :=
  (c.worn.eraseIdx i).countP (fun x => decide (stacks_on is_compact c layer p x))

/-- The per-part offender-name set of the spec: the display names of the items positioned
strictly before position `i` that have a layer strictly greater than `layer` and cover
`bp`. -/
def offender_names (c : Character) (i : Nat) (layer : layer_level) (bp : bodypart_id) :
    Finset String :=
  (((c.worn.take i).filter
      (fun it => decide (layer < it.get_layer) && it.covers bp)).map item.type_name).toFinset

/-- The test that lets the loop body reach line 87 for the part `bp`: the skip at line 81 is
not taken and the subject covers `bp`. -/
def part_evaluated (worn_item : item) (_bp bp : bodypart_id) : Bool :=
  !(_bp.token ≠ 0 && _bp.is_null) && worn_item.covers bp

/-- The part `bp` is pushed to `body_parts_with_stacking_penalty`. -/
def stacking_marked (is_compact : item → Character → Bool) (worn_item : item)
    (c : Character) (_bp bp : bodypart_id) : Bool :=
  part_evaluated worn_item _bp bp &&
    decide (1 < c.worn.countP (stacking_pred is_compact worn_item.get_layer bp c))

/-- The part `bp` is pushed to `body_parts_with_out_of_order_penalty`. -/
def out_of_order_marked (worn_item_it : Nat) (worn_item : item)
    (c : Character) (_bp bp : bodypart_id) : Bool :=
  part_evaluated worn_item _bp bp &&
    decide (scan_bad_items_within worn_item.get_layer bp (c.worn.take worn_item_it) ∅ ≠ ∅)

/-! ## Concrete wearers used in the evaluations -/

def torso : bodypart_id := ⟨0, 0, false⟩

def head : bodypart_id := ⟨1, 1, false⟩

/-- The null body part `num_bp` behind the "All" tab: a null id with the non-zero token of the
end of the legacy enum. -/
def num_bp : bodypart_id := ⟨12, 12, true⟩

def shirt : item := ⟨REGULAR_LAYER, [torso], [], "shirt"⟩

def vest : item := ⟨REGULAR_LAYER, [torso], [], "vest"⟩

def coat : item := ⟨OUTER_LAYER, [torso], [], "coat"⟩

def hoodie : item := ⟨REGULAR_LAYER, [torso, head], [], "hoodie"⟩

def jumpsuit : item := ⟨REGULAR_LAYER, [torso, head], [], "jumpsuit"⟩

def parka : item := ⟨OUTER_LAYER, [torso, head], [], "parka"⟩

/-! ## The `SORT_ARMOR` action -/

/-- The comparator passed to `std::stable_sort` at lines 876-878. -/
def layer_less (l r : item) : Bool := decide (l.get_layer < r.get_layer)

/-- Insertion step of the stable sort: `x`, which stood in front of every element of the
already sorted `rest`, goes behind the leading elements that compare less than `x` and in
front of the first element that does not. -/
def stable_insert (comp : item → item → Bool) (x : item) : List item → List item
  | [] => [x]
  | y :: ys => if comp y x then y :: stable_insert comp x ys else x :: y :: ys

/-- The library function `std::stable_sort( first, last, comp )` of the C++ standard library
(not part of the repository): a sort by `comp` that keeps equivalent elements in their
original order, embedded as a stable insertion sort. -/
def stable_sort (comp : item → item → Bool) : List item → List item
  | [] => []
  | x :: xs => stable_insert comp x (stable_sort comp xs)

/-- The `SORT_ARMOR` branch (lines 873-880): the new value of `who.worn`. -/
def sort_armor (worn : List item) : List item := stable_sort layer_less worn

/-! ## The interactive loop of `show_armor_layers_ui` -/

/-- The locals of `show_armor_layers_ui` that the list navigation reads and writes, together
with `who.worn`. -/
structure layers_ui where
  worn : List item
  tabindex : Int
  leftListIndex : Int
  leftListOffset : Int
  selected : Int
  leftListLines : Int
  leftListSize : Int
  tmp_worn : List Nat
deriving DecidableEq, Repr

/-- The "All" branch of the `tmp_worn` build (lines 763-766), `i` being the running index. -/
def build_tmp_worn_all : List item → Nat → List Nat
  | [], _ => []
  | _ :: rest, i => i :: build_tmp_worn_all rest (i + 1)

/-- The `bp_*` branch of the `tmp_worn` build (lines 769-775). -/
def build_tmp_worn_part (bp : bodypart_id) : List item → Nat → List Nat
  | [], _ => []
  | it :: rest, i =>
    if it.covers bp then i :: build_tmp_worn_part bp rest (i + 1)
    else build_tmp_worn_part bp rest (i + 1)

/-- Lines 758-781, run at the head of every loop iteration with `bp = armor_cat[tabindex]`:
rebuild `tmp_worn`, set `leftListSize` and clamp `leftListIndex`. -/
def rebuild_tmp_worn (s : layers_ui) (bp : bodypart_id) : layers_ui :=
  let tmp_worn :=
    if bp.is_null then build_tmp_worn_all s.worn 0 else build_tmp_worn_part bp s.worn 0
  let leftListSize : Int := tmp_worn.length
  let new_index_upper_bound := max 0 (leftListSize - 1)
  { s with
    tmp_worn := tmp_worn
    leftListSize := leftListSize
    leftListIndex := min s.leftListIndex new_index_upper_bound }

/-- The lambda `access_tmp_worn` (lines 498-503): the position in `who.worn` stored in row
`index` of `tmp_worn`; reading outside the vector has no defined result. -/
def access_tmp_worn (s : layers_ui) (index : Int) : Option Nat :=
  if 0 ≤ index then s.tmp_worn[index.toNat]? else none

/-- The two positions of `who.worn` whose items `shift_selected_item` exchanges:
`access_tmp_worn( selected )` and `access_tmp_worn( leftListIndex )`. -/
def shift_positions (s : layers_ui) : Option (Nat × Nat) :=
  match access_tmp_worn s s.selected, access_tmp_worn s s.leftListIndex with
  | some selected_it, some left_it => some (selected_it, left_it)
  | _, _ => none

/-- The lambda `shift_selected_item` (lines 791-804). -/
def shift_selected_item (s : layers_ui) : Option layers_ui :=
  if s.selected ≥ 0 then
    match shift_positions s with
    | some (selected_it, left_it) =>
      match s.worn[selected_it]?, s.worn[left_it]? with
      | some a, some b =>
        let temp := s.tmp_worn.getD s.selected.toNat 0
        let tmp1 := s.tmp_worn.set s.selected.toNat
          (s.tmp_worn.getD s.leftListIndex.toNat 0)
        some { s with
          worn := (s.worn.set selected_it b).set left_it a
          tmp_worn := tmp1.set s.leftListIndex.toNat temp
          selected := s.leftListIndex }
      | _, _ => none
    | none => none
  else some s

/-- The cursor movement of the `UP` branch (lines 807-819). -/
def cursor_up (s : layers_ui) : layers_ui :=
  if s.leftListIndex > 0 then
    let s1 := { s with leftListIndex := s.leftListIndex - 1 }
    if s1.leftListIndex < s1.leftListOffset then
      { s1 with leftListOffset := s1.leftListIndex }
    else s1
  else
    let s1 := { s with leftListIndex := s.leftListSize - 1 }
    if s1.leftListLines ≥ s1.leftListSize then { s1 with leftListOffset := 0 }
    else { s1 with leftListOffset := s1.leftListSize - s1.leftListLines }

/-- The cursor movement of the `DOWN` branch (lines 823-831). -/
def cursor_down (s : layers_ui) : layers_ui :=
  if s.leftListIndex + 1 < s.leftListSize then
    let s1 := { s with leftListIndex := s.leftListIndex + 1 }
    if s1.leftListIndex ≥ s1.leftListOffset + s1.leftListLines then
      { s1 with leftListOffset := s1.leftListIndex + 1 - s1.leftListLines }
    else s1
  else
    { s with leftListIndex := 0, leftListOffset := 0 }

/-- The branch `action == "UP" && leftListSize > 0` (lines 806-821); with an empty list
no branch of the dispatch matches the action and nothing changes. -/
def handle_UP (s : layers_ui) : Option layers_ui :=
  if s.leftListSize > 0 then shift_selected_item (cursor_up s) else some s

/-- The branch `action == "DOWN" && leftListSize > 0` (lines 822-833). -/
def handle_DOWN (s : layers_ui) : Option layers_ui :=
  if s.leftListSize > 0 then shift_selected_item (cursor_down s) else some s

/-- A screen state on the "All" tab with three items worn, the first of them grabbed. -/
def grabbed_first_of_three : layers_ui :=
  ⟨[shirt, coat, vest], 0, 0, 0, 0, 10, 0, []⟩

/-- A screen state on the "All" tab with three items worn, the second of them grabbed. -/
def grabbed_second_of_three : layers_ui :=
  ⟨[shirt, coat, vest], 0, 1, 0, 1, 10, 0, []⟩

/-! ## The action dispatch of `show_armor_layers_ui` -/

/-- The branch `action == "LEFT"` (lines 834-840); `tabcount` is `num_of_parts + 1`. -/
def handle_LEFT (tabcount : Int) (u : layers_ui) : layers_ui :=
  let tabindex := u.tabindex - 1
  let tabindex := if tabindex < 0 then tabcount - 1 else tabindex
  { u with tabindex := tabindex, leftListIndex := 0, leftListOffset := 0, selected := -1 }

/-- The branch `action == "RIGHT"` (lines 841-844); `%` on `int` truncates towards zero. -/
def handle_RIGHT (tabcount : Int) (u : layers_ui) : layers_ui :=
  { u with
    tabindex := (u.tabindex + 1).tmod tabcount
    leftListIndex := 0
    leftListOffset := 0
    selected := -1 }

/-- A screen state on the third of four tabs with the second row grabbed. -/
def third_tab_grabbed : layers_ui :=
  ⟨[shirt, coat, vest], 2, 1, 1, 1, 10, 3, [0, 1, 2]⟩

/-- The two kinds of wearer the screen is run for: `who.is_avatar()` or `who.is_npc()`. -/
inductive wearer_kind where
  | avatar
  | npc
deriving DecidableEq, Repr

def wearer_kind.is_avatar : wearer_kind → Bool
  | .avatar => true
  | .npc => false

def wearer_kind.is_npc : wearer_kind → Bool
  | .avatar => false
  | .npc => true

/-- What the player gets to see apart from the panes: `popup( ... )`, the
`popup_getkey( ... )` of `USAGE_HELP`, `do_return_entry()`, and a message that a
collaborator called by the loop reports to the player. -/
inductive ui_event where
  | popup (text : String)
  | popup_getkey_usage_help
  | do_return_entry
  | message (text : String)
deriving DecidableEq, Repr

/-- The locals of `show_armor_layers_ui` across loop iterations: the left-list state with
`who.worn`, the right-list scroll state, and the events produced so far. -/
structure screen where
  ui : layers_ui
  rightListOffset : Int
  rightListLines : Int
  rightListSize : Int
  events : List ui_event
deriving DecidableEq, Repr

/-- `flat_set::insert` for `armor_cat`: kept sorted by the integer id, no duplicates. -/
def flat_set_insert (x : bodypart_id) : List bodypart_id → List bodypart_id
  | [] => [x]
  | y :: ys =>
    if x.idx < y.idx then x :: y :: ys
    else if x.idx = y.idx then y :: ys
    else y :: flat_set_insert x ys

/-- The facts fixed before the loop starts: the kind of wearer, `all_parts =
who.get_all_body_parts()` and the null part `bodypart_str_id::NULL_ID().id()`. -/
structure screen_config where
  who : wearer_kind
  all_parts : List bodypart_id
  null_part : bodypart_id
deriving DecidableEq, Repr

/-- Lines 451-455: every part of `all_parts` and then the null part inserted into the
flat set `armor_cat`. -/
def screen_config.armor_cat (cfg : screen_config) : List bodypart_id :=
  flat_set_insert cfg.null_part (cfg.all_parts.foldl (fun acc it => flat_set_insert it acc) [])

def screen_config.num_of_parts (cfg : screen_config) : Int := cfg.all_parts.length

/-- The constant `tabcount = num_of_parts + 1` (line 485). -/
def screen_config.tabcount (cfg : screen_config) : Int := cfg.num_of_parts + 1

/-- What the collaborators outside `armor_layers.cpp` answer during one loop iteration.
`wear_possessed` is `none` when the call returns false, otherwise the new `who.worn` and the
position of the worn item in it; `change_side_worn` and `takeoff_worn` are `who.worn` after
`who.change_side( ... )` and after `takeoff( ... )`; `takeoff_started_activity` is
`!you.has_activity( ACT_ARMOR_LAYERS )` after the take-off; `drawn_rightListSize` is the
value the redraw callback computes for `rightListSize`. -/
structure iteration_input where
  you_moves : Int
  rl_dist : Int
  you_friendly : Bool
  action : String
  query_yn : Bool
  wear_choice : Option item
  wear_possessed : Option (List item × Nat)
  is_sided : Bool
  change_side_worn : List item
  takeoff_worn : List item
  takeoff_started_activity : Bool
  drawn_rightListSize : Int
deriving DecidableEq, Repr

/-- The ways `show_armor_layers_ui` returns. -/
inductive return_reason where
  | moves_exhausted
  | too_far
  | not_friendly
  | removal_activity
  | quit
deriving DecidableEq, Repr

/-- The outcome of one loop iteration: the loop goes on with a new state, the function
returns, or the iteration read `tmp_worn`, `who.worn` or `armor_cat` out of bounds. -/
inductive loop_result where
  | next (s : screen)
  | returned (why : return_reason) (s : screen)
  | undefined
deriving DecidableEq, Repr

/-- The left-list part of the redraw callback (lines 589-598). -/
def on_redraw_left (u : layers_ui) : layers_ui :=
  let u1 :=
    if u.leftListLines > u.leftListSize then { u with leftListOffset := 0 }
    else if u.leftListOffset + u.leftListLines > u.leftListSize then
      { u with leftListOffset := u.leftListSize - u.leftListLines }
    else u
  if u1.leftListOffset > u1.leftListIndex then { u1 with leftListOffset := u1.leftListIndex }
  else if u1.leftListOffset + u1.leftListLines ≤ u1.leftListIndex then
    { u1 with leftListOffset := u1.leftListIndex + 1 - u1.leftListLines }
  else u1

/-- The variables the redraw callback writes (lines 589-598 and 682-693). -/
def on_redraw (inp : iteration_input) (s : screen) : screen :=
  let s1 := { s with ui := on_redraw_left s.ui, rightListSize := inp.drawn_rightListSize }
  if s1.rightListLines > s1.rightListSize then { s1 with rightListOffset := 0 }
  else if s1.rightListOffset + s1.rightListLines > s1.rightListSize then
    { s1 with rightListOffset := s1.rightListSize - s1.rightListLines }
  else s1

/-- Turn the result of a left-list handler into a loop result. -/
def lift_ui (s : screen) : Option layers_ui → loop_result
  | some u => .next { s with ui := u }
  | none => .undefined

/-- The branch `action == "NEXT_TAB"` (lines 845-848). -/
def handle_NEXT_TAB (s : screen) : screen :=
  if s.rightListOffset + s.rightListLines < s.rightListSize then
    { s with rightListOffset := s.rightListOffset + 1 }
  else s

/-- The branch `action == "PREV_TAB"` (lines 849-852). -/
def handle_PREV_TAB (s : screen) : screen :=
  if s.rightListOffset > 0 then { s with rightListOffset := s.rightListOffset - 1 } else s

/-- The branch `action == "MOVE_ARMOR"` (lines 853-858). -/
def handle_MOVE_ARMOR (u : layers_ui) : layers_ui :=
  if u.selected ≥ 0 then { u with selected := -1 } else { u with selected := u.leftListIndex }

/-- The item `*access_tmp_worn( index )`, with its position in `who.worn`. -/
def access_item (u : layers_ui) (index : Int) : Option (Nat × item) :=
  match access_tmp_worn u index with
  | some pos =>
    match u.worn[pos]? with
    | some it => some (pos, it)
    | none => none
  | none => none

/-- The branch `action == "CHANGE_SIDE"` (lines 859-866). -/
def handle_CHANGE_SIDE (inp : iteration_input) (s : screen) : loop_result :=
  if s.ui.leftListIndex < s.ui.leftListSize then
    match access_item s.ui s.ui.leftListIndex with
    | none => .undefined
    | some _ =>
      if inp.is_sided then
        if inp.query_yn then .next { s with ui := { s.ui with worn := inp.change_side_worn } }
        else .next s
      else .next s
  else .next s

def item.set_flag (i : item) (f : flag_id) : item :=
  if f ∈ i.flags then i else { i with flags := f :: i.flags }

def item.unset_flag (i : item) (f : flag_id) : item :=
  { i with flags := i.flags.filter (fun g => decide (g ≠ f)) }

/-- The branch `action == "TOGGLE_CLOTH"` (lines 867-872). -/
def handle_TOGGLE_CLOTH (s : screen) : loop_result :=
  match access_item s.ui s.ui.leftListIndex with
  | none => .undefined
  | some (pos, it) =>
    let toggled :=
      if !it.has_flag flag_id.HIDDEN then it.set_flag flag_id.HIDDEN
      else it.unset_flag flag_id.HIDDEN
    .next { s with ui := { s.ui with worn := s.ui.worn.set pos toggled } }

/-- The branch `action == "SORT_ARMOR"` (lines 873-880). -/
def handle_SORT_ARMOR (u : layers_ui) : layers_ui := { u with worn := sort_armor u.worn }

/-- The text of the popup at lines 909 and 925. -/
def cant_put_this_on : String := "Can't put this on!"

/-- The part `armor_cat[ tabindex ]` of the current tab. -/
def current_bp (cfg : screen_config) (tabindex : Int) : Option bodypart_id :=
  if 0 ≤ tabindex then cfg.armor_cat[tabindex.toNat]? else none

/-- The branch `action == "EQUIP_ARMOR"` (lines 881-911).  Modelled from the spec:
`wear_possessed` is defined outside the sources at hand; the spec says that "invalid equip
attempts ... are otherwise no-ops", so a call that returns false leaves `who.worn` as it
was. -/
def handle_EQUIP_ARMOR (cfg : screen_config) (inp : iteration_input) (s : screen) :
    loop_result :=
  match inp.wear_choice with
  | none => .next s
  | some loc =>
    match inp.wear_possessed with
    | some (worn, loc_pos) =>
      match current_bp cfg s.ui.tabindex with
      | none => .undefined
      | some bp =>
        if s.ui.tabindex = cfg.num_of_parts ∨ loc.covers bp = true then
          let leftListIndex : Int := ((worn.take loc_pos).countP
            (fun i => decide (s.ui.tabindex = cfg.num_of_parts) || i.covers bp) : Nat)
          .next { s with ui := { s.ui with worn := worn, leftListIndex := leftListIndex } }
        else .next { s with ui := { s.ui with worn := worn } }
    | none =>
      if cfg.who.is_npc then
        .next { s with events := s.events ++ [ui_event.popup cant_put_this_on] }
      else .next s

/-- The branch `action == "EQUIP_ARMOR_HERE"` (lines 912-927); `wear_possessed` as in
`handle_EQUIP_ARMOR`. -/
def handle_EQUIP_ARMOR_HERE (cfg : screen_config) (inp : iteration_input) (s : screen) :
    loop_result :=
  match inp.wear_choice with
  | none => .next s
  | some _ =>
    if s.ui.leftListSize > 0 ∧ access_tmp_worn s.ui s.ui.leftListIndex = none then .undefined
    else
      match inp.wear_possessed with
      | some (worn, _) => .next { s with ui := { s.ui with worn := worn } }
      | none =>
        if cfg.who.is_npc then
          .next { s with events := s.events ++ [ui_event.popup cant_put_this_on] }
        else .next s

/-- The branch `action == "REMOVE_ARMOR"` (lines 928-945). -/
def handle_REMOVE_ARMOR (inp : iteration_input) (s : screen) : loop_result :=
  if s.ui.leftListIndex < s.ui.leftListSize then
    if inp.query_yn then
      match access_item s.ui s.ui.leftListIndex with
      | none => .undefined
      | some _ =>
        let s1 := { s with
          events := s.events ++ [ui_event.do_return_entry]
          ui := { s.ui with worn := inp.takeoff_worn } }
        if inp.takeoff_started_activity then .returned return_reason.removal_activity s1
        else
          .next { s1 with ui := { s1.ui with
            selected := -1
            leftListIndex := max 0 (s1.ui.leftListIndex - 1) } }
    else .next s
  else .next s

/-- The `if` / `else if` chain over `action` (lines 806-1001).  `ASSIGN_INVLETS` only
writes inventory letters, which are not part of the state kept here; `QUIT` sets `exit`,
which ends the loop and with it the function. -/
def dispatch (cfg : screen_config) (inp : iteration_input) (s : screen) : loop_result :=
  if inp.action = "UP" ∧ s.ui.leftListSize > 0 then
    lift_ui s (shift_selected_item (cursor_up s.ui))
  else if inp.action = "DOWN" ∧ s.ui.leftListSize > 0 then
    lift_ui s (shift_selected_item (cursor_down s.ui))
  else if inp.action = "LEFT" then .next { s with ui := handle_LEFT cfg.tabcount s.ui }
  else if inp.action = "RIGHT" then .next { s with ui := handle_RIGHT cfg.tabcount s.ui }
  else if inp.action = "NEXT_TAB" then .next (handle_NEXT_TAB s)
  else if inp.action = "PREV_TAB" then .next (handle_PREV_TAB s)
  else if inp.action = "MOVE_ARMOR" then .next { s with ui := handle_MOVE_ARMOR s.ui }
  else if inp.action = "CHANGE_SIDE" then handle_CHANGE_SIDE inp s
  else if inp.action = "TOGGLE_CLOTH" then handle_TOGGLE_CLOTH s
  else if inp.action = "SORT_ARMOR" then .next { s with ui := handle_SORT_ARMOR s.ui }
  else if inp.action = "EQUIP_ARMOR" then handle_EQUIP_ARMOR cfg inp s
  else if inp.action = "EQUIP_ARMOR_HERE" then handle_EQUIP_ARMOR_HERE cfg inp s
  else if inp.action = "REMOVE_ARMOR" then handle_REMOVE_ARMOR inp s
  else if inp.action = "ASSIGN_INVLETS" then .next s
  else if inp.action = "USAGE_HELP" then
    .next { s with events := s.events ++ [ui_event.popup_getkey_usage_help] }
  else if inp.action = "QUIT" then .returned return_reason.quit s
  else .next s

/-- Lines 758-788 and the dispatch: rebuild `tmp_worn`, redraw, read the action. -/
def loop_body (cfg : screen_config) (inp : iteration_input) (s : screen) : loop_result :=
  match current_bp cfg s.ui.tabindex with
  | none => .undefined
  | some bp =>
    let s1 := on_redraw inp { s with ui := rebuild_tmp_worn s.ui bp }
    if cfg.who.is_npc ∧ inp.action = "ASSIGN_INVLETS" then .next s1
    else dispatch cfg inp s1

/-- One pass through `while( !exit )` (lines 739-1002), the loop head included. -/
def loop_iteration (cfg : screen_config) (inp : iteration_input) (s : screen) :
    loop_result :=
  if cfg.who.is_avatar then
    if inp.you_moves < 0 then
      .returned return_reason.moves_exhausted
        { s with events := s.events ++ [ui_event.do_return_entry] }
    else loop_body cfg inp s
  else
    if inp.rl_dist > 1 then .returned return_reason.too_far s
    else if !inp.you_friendly then .returned return_reason.not_friendly s
    else loop_body cfg inp s

/-- The screen for a wearer with torso and head. -/
def config_of (who : wearer_kind) : screen_config := ⟨who, [torso, head], num_bp⟩

/-- A screen state on the first tab with three items worn and nothing grabbed. -/
def screen_of_three : screen :=
  ⟨⟨[shirt, coat, vest], 0, 0, 0, -1, 10, 0, []⟩, 0, 10, 0, []⟩

/-- An iteration in which the player does nothing that needs a collaborator. -/
def idle_input (action : String) : iteration_input :=
  ⟨0, 0, true, action, false, none, none, false, [], [], false, 0⟩

/-- The wear order `who.worn` after an iteration, when the iteration has a defined
outcome. -/
def loop_result.worn : loop_result → Option (List item)
  | .next s => some s.ui.worn
  | .returned _ s => some s.ui.worn
  | .undefined => none

/-- The actions that C12 lists as never touching the wear order. -/
def frame_actions : List String :=
  ["LEFT", "RIGHT", "NEXT_TAB", "PREV_TAB", "MOVE_ARMOR", "USAGE_HELP", "QUIT"]

/-- The list `l'` is `l` with the entries at two positions exchanged. -/
def exchanged (l l' : List item) : Prop :=
  ∃ (a b : Nat) (wa wb : item), l[a]? = some wa ∧ l[b]? = some wb ∧
    l' = (l.set a wb).set b wa

/-- An iteration in which the wearer picks the coat in the wear menu and `wear_possessed`
returns false. -/
def failed_equip_input (action : String) : iteration_input :=
  ⟨0, 0, true, action, false, some coat, none, false, [], [], false, 0⟩

/-- An iteration that starts with the avatar out of moves. -/
def out_of_moves_input (action : String) : iteration_input :=
  ⟨-1, 0, true, action, false, none, none, false, [], [], false, 0⟩

/-- The items `a` (worn by `c1`) and `b` (worn by `c2`) agree on everything
`get_item_penalties` reads of an item: the layer, the coverage of the wearer's body parts,
the `SEMITANGIBLE` flag, compactness and the name. -/
def same_attributes (ic1 ic2 : item → Character → Bool) (c1 c2 : Character) (a b : item) :
    Prop :=
  a.get_layer = b.get_layer ∧ (∀ p ∈ c1.get_all_body_parts, a.covers p = b.covers p) ∧
    a.has_flag flag_id.SEMITANGIBLE = b.has_flag flag_id.SEMITANGIBLE ∧
    ic1 a c1 = ic2 b c2 ∧ a.type_name = b.type_name

instance (ic1 ic2 : item → Character → Bool) (c1 c2 : Character) (a b : item) :
    Decidable (same_attributes ic1 ic2 c1 c2 a b) := by
  unfold same_attributes
  infer_instance

/-- A shirt that differs from `shirt` in a flag and in the order of a longer coverage list
that `get_item_penalties` does not look at. -/
def hidden_shirt : item := ⟨REGULAR_LAYER, [torso, torso], [flag_id.HIDDEN], "shirt"⟩

/-! ## `item::type_name` -/

/-- Modelled from the spec: `item::type_name` is defined in `item.cpp`, which is not part of
the sources at hand; its test `item_type_name_test.cpp` is.  The test shows an item without
a "name" variable answering with the name of its type for the quantity asked, and an item
whose "name" variable was set answering with that string.  The naming of corpses, the third
case of the test, is left out: a corpse is not an item of the wear order.  `item_vars` is
the variable map behind `set_var` / `get_var`, `nname` the name of the type. -/
structure item_naming where
  item_vars : List (String × String)
  nname : Nat → String

/-- `item::get_var( key )`, the empty string standing for a variable that is not set. -/
def item_naming.get_var (n : item_naming) (key : String) : String :=
  match n.item_vars.find? (fun kv => kv.1 == key) with
  | some kv => kv.2
  | none => ""

/-- `item::set_var( key, value )`. -/
def item_naming.set_var (n : item_naming) (key value : String) : item_naming :=
  { n with item_vars := (key, value) :: n.item_vars.filter (fun kv => !(kv.1 == key)) }

/-- Modelled from the spec: `item::type_name( quantity )` as the test describes it, see
`item_naming`. -/
def item_naming.type_name (n : item_naming) (quantity : Nat) : String :=
  match n.item_vars.find? (fun kv => kv.1 == "name") with
  | some kv => kv.2
  | none => n.nname quantity

/-- A worn item whose `type_name()` (quantity 1, the default argument used at line 99) comes
from the naming `n`. -/
def item.of_naming (layer : layer_level) (covered : List bodypart_id) (flags : List flag_id)
    (n : item_naming) : item :=
  ⟨layer, covered, flags, n.type_name 1⟩

/-- The type `shotgun_410` of the test, as far as naming goes. -/
def shotgun_410 : item_naming :=
  ⟨[], fun quantity => if quantity = 1 then "shotgun" else "shotguns"⟩

/-! ## `body_part_names` and its callers in `draw_mid_pane` -/

/-- The loop of `body_part_names` (lines 140-150).  `other part` stands for
`convert_bp( bp_aiOther[part->token] ).id()` and `name_accusative part n` for
`body_part_name_accusative( part, n )`, both defined outside the sources at hand. -/
def body_part_names_loop (other : bodypart_id → bodypart_id)
    (name_accusative : bodypart_id → Nat → String) : List bodypart_id → List String
  | [] => []
  | [part] => [name_accusative part 1]
  | part :: next :: rest =>
    if next = other part then
      name_accusative part 2 :: body_part_names_loop other name_accusative rest
    else name_accusative part 1 :: body_part_names_loop other name_accusative (next :: rest)

/-- The function `body_part_names` (lines 131-153): the error value stands for the branch
that calls `debugmsg( "Asked for names of empty list" )`. -/
def body_part_names (other : bodypart_id → bodypart_id)
    (name_accusative : bodypart_id → Nat → String)
    (enumerate_as_string : List String → String) (parts : List bodypart_id) :
    Except String String :=
  if parts.isEmpty then .error "Asked for names of empty list"
  else .ok (enumerate_as_string (body_part_names_loop other name_accusative parts))

/-- The calls of `body_part_names` made by `draw_mid_pane` (lines 196-260), in order, with
their results; `returns_early` is the outcome of the test at line 172 that makes the
function return before it asks for the penalties. -/
def draw_mid_pane_names (other : bodypart_id → bodypart_id)
    (name_accusative : bodypart_id → Nat → String)
    (enumerate_as_string : List String → String) (returns_early : Bool)
    (penalties : item_penalties) : List (Except String String) :=
  if returns_early then []
  else
    (if !penalties.body_parts_with_stacking_penalty.isEmpty then
      [body_part_names other name_accusative enumerate_as_string
        penalties.body_parts_with_stacking_penalty]
    else []) ++
    (if !penalties.body_parts_with_out_of_order_penalty.isEmpty then
      [body_part_names other name_accusative enumerate_as_string
        penalties.body_parts_with_out_of_order_penalty]
    else [])

/-! ## `clothing_flags_description` -/

/-- One `if( worn_item.has_flag( f ) ) description_stack.emplace_back( text )`. -/
def flag_line (worn_item : item) (f : flag_id) (text : String) : List String :=
  if worn_item.has_flag f then [text] else []

/-- The function `clothing_flags_description` (lines 330-375); the translation `_( ... )`
is left out. -/
def clothing_flags_description (worn_item : item) : List String :=
  (if worn_item.has_flag flag_id.FIT then ["It fits you well."]
    else if worn_item.has_flag flag_id.VARSIZE then ["It could be refitted."]
    else []) ++
  flag_line worn_item flag_id.HOOD "It has a hood." ++
  flag_line worn_item flag_id.POCKETS "It has pockets." ++
  flag_line worn_item flag_id.WATERPROOF "It is waterproof." ++
  flag_line worn_item flag_id.WATER_FRIENDLY "It is water friendly." ++
  flag_line worn_item flag_id.FANCY "It looks fancy." ++
  flag_line worn_item flag_id.SUPER_FANCY "It looks really fancy." ++
  flag_line worn_item flag_id.FLOTATION "You will not drown today." ++
  flag_line worn_item flag_id.OVERSIZE "It is very bulky." ++
  flag_line worn_item flag_id.SWIM_GOGGLES "It helps you to see clearly underwater." ++
  flag_line worn_item flag_id.SEMITANGIBLE "It can occupy the same space as other things." ++
  flag_line worn_item flag_id.COMPACT "It won't encumber you when worn with other things."

/-- The screen as it starts for a wearer who wears nothing. -/
def screen_nothing_worn : screen :=
  ⟨⟨[], 0, 0, 0, -1, 10, 0, []⟩, 0, 10, 0, []⟩

/-- A screen state on the torso tab: the jumpsuit and the hoodie cover the torso, the item
between them does not, and the hoodie on row 1 is grabbed. -/
def torso_tab_grabbed : layers_ui :=
  ⟨[jumpsuit, ⟨REGULAR_LAYER, [head], [], "cap"⟩, hoodie], 0, 1, 0, 1, 10, 0, []⟩

/-! ## The notices of a failed equip attempt -/

/-- Modelled from the spec: `wear_possessed` is defined outside the sources at hand, and with
it whatever it tells the player when it refuses an item.  The spec says that "attempting an
invalid equip reports "cannot wear" and leaves state unchanged" and that "invalid equip
attempts produce a user-facing notice and are otherwise no-ops".  The branches at lines
881-927 show their own popup only when the wearer is an NPC (lines 907-910 and 922-926), so
the report to the avatar is the one of `wear_possessed`: a call that returns false (`none`)
reports "cannot wear" to the avatar, and a call that succeeds reports nothing. -/
def wear_possessed_report (who : wearer_kind) (result : Option (List item × Nat)) :
    List ui_event :=
  match result with
  | some _ => []
  | none => if who.is_avatar then [ui_event.message "cannot wear"] else []

/-- The notices the player gets from one iteration in which `wear_possessed` is called: what
`wear_possessed` reports, followed by the events the branch itself adds to those of the
screen before it.  There are none to speak of when the iteration has no next state. -/
def equip_attempt_notices (cfg : screen_config) (inp : iteration_input) (s : screen) :
    Option (List ui_event) :=
  match dispatch cfg inp s with
  | .next s' =>
    some (wear_possessed_report cfg.who inp.wear_possessed ++ s'.events.drop s.events.length)
  | _ => none

/-! ## Theorems -/

/-! ### Helper lemmas on the loops of `get_item_penalties` -/

theorem penalties_loop_body_eq (is_compact : item → Character → Bool) (i : Nat) (w : item)
    (c : Character) (q : bodypart_id) (st : penalty_locals) (bp : bodypart_id) :
    penalties_loop_body is_compact i w c q st bp =
      ⟨st.body_parts_with_stacking_penalty ++
          (if stacking_marked is_compact w c q bp then [bp] else []),
        st.body_parts_with_out_of_order_penalty ++
          (if out_of_order_marked i w c q bp then [bp] else []),
        st.lists_of_bad_items_within ++
          (if out_of_order_marked i w c q bp then
            [scan_bad_items_within w.get_layer bp (c.worn.take i) ∅] else [])⟩ := by
  unfold penalties_loop_body stacking_marked out_of_order_marked part_evaluated
  by_cases h1 : ¬q.token = 0 ∧ q.is_null = true
  · have h1' : ¬(q.token = 0 ∨ q.is_null = false) := by
      rcases h1 with ⟨ha, hb⟩
      simp [ha, hb]
    simp [h1, h1']
  · have h1' : q.token = 0 ∨ q.is_null = false := by
      by_cases ha : q.token = 0
      · exact Or.inl ha
      · right
        cases hb : q.is_null
        · rfl
        · exact absurd ⟨ha, hb⟩ h1
    by_cases h2 : w.covers bp = true
    · by_cases h3 : 1 < c.worn.countP (stacking_pred is_compact w.get_layer bp c)
      · by_cases h4 : scan_bad_items_within w.get_layer bp (c.worn.take i) ∅ = ∅
        · simp [h1, h1', h2, h3, h4]
        · simp [h1, h1', h2, h3, h4]
      · by_cases h4 : scan_bad_items_within w.get_layer bp (c.worn.take i) ∅ = ∅
        · simp [h1, h1', h2, h3, h4]
        · simp [h1, h1', h2, h3, h4]
    · simp [h1, h1', h2]

theorem penalties_loop_fold (is_compact : item → Character → Bool) (i : Nat) (w : item)
    (c : Character) (q : bodypart_id) (ps : List bodypart_id) (st : penalty_locals) :
    ps.foldl (penalties_loop_body is_compact i w c q) st =
      ⟨st.body_parts_with_stacking_penalty ++ ps.filter (stacking_marked is_compact w c q),
        st.body_parts_with_out_of_order_penalty ++ ps.filter (out_of_order_marked i w c q),
        st.lists_of_bad_items_within ++
          (ps.filter (out_of_order_marked i w c q)).map
            (fun bp => scan_bad_items_within w.get_layer bp (c.worn.take i) ∅)⟩ := by
  induction ps generalizing st with
  | nil => simp
  | cons bp ps ih =>
    rw [List.foldl_cons, ih, penalties_loop_body_eq]
    by_cases h1 : stacking_marked is_compact w c q bp = true <;>
      by_cases h2 : out_of_order_marked i w c q bp = true <;>
      simp [h1, h2, List.filter_cons]

/-- The result of `get_item_penalties` at a valid position, with the loops resolved. -/
theorem get_item_penalties_eq (is_compact : item → Character → Bool) (i : Nat)
    (c : Character) (q : bodypart_id) (w : item) (hw : c.worn[i]? = some w) :
    get_item_penalties is_compact i c q =
      some ⟨c.get_all_body_parts.filter (stacking_marked is_compact w c q),
        c.get_all_body_parts.filter (out_of_order_marked i w c q),
        (intersect_loop ((c.get_all_body_parts.filter (out_of_order_marked i w c q)).map
            (fun bp => scan_bad_items_within w.get_layer bp (c.worn.take i) ∅))).headD ∅⟩ := by
  unfold get_item_penalties
  rw [hw]
  simp only [penalties_loop_fold, List.nil_append]
  congr 2
  generalize intersect_loop _ = l
  cases l <;> simp

theorem one_lt_countP_iff {α : Type} (p : α → Bool) (l : List α) :
    1 < l.countP p ↔
      ∃ (j k : Nat) (a b : α), j < k ∧ l[j]? = some a ∧ l[k]? = some b ∧
        p a = true ∧ p b = true := by
  induction l with
  | nil => simp
  | cons x xs ih =>
    constructor
    · intro h
      by_cases h1 : 1 < xs.countP p
      · obtain ⟨j, k, a, b, hjk, ha, hb, hpa, hpb⟩ := ih.mp h1
        exact ⟨j + 1, k + 1, a, b, by omega, by simpa using ha, by simpa using hb, hpa, hpb⟩
      · rw [List.countP_cons] at h
        have hx : p x = true := by
          by_contra hx
          rw [if_neg hx] at h
          exact h1 h
        have hpos : 0 < xs.countP p := by
          rw [if_pos hx] at h
          omega
        obtain ⟨b, hb, hpb⟩ := List.countP_pos_iff.mp hpos
        obtain ⟨k, hk⟩ := List.mem_iff_getElem?.mp hb
        exact ⟨0, k + 1, x, b, by omega, by simp, by simpa using hk, hx, hpb⟩
    · rintro ⟨j, k, a, b, hjk, ha, hb, hpa, hpb⟩
      rw [List.countP_cons]
      cases k with
      | zero => omega
      | succ k =>
        rw [List.getElem?_cons_succ] at hb
        cases j with
        | zero =>
          simp at ha
          subst ha
          have hpos : 0 < xs.countP p :=
            List.countP_pos_iff.mpr ⟨b, List.mem_iff_getElem?.mpr ⟨k, hb⟩, hpb⟩
          rw [if_pos hpa]
          omega
        | succ j =>
          rw [List.getElem?_cons_succ] at ha
          have := ih.mpr ⟨j, k, a, b, by omega, ha, hb, hpa, hpb⟩
          omega

theorem countP_eraseIdx_add {α : Type} (p : α → Bool) (l : List α) (i : Nat) (w : α)
    (h : l[i]? = some w) :
    l.countP p = (l.eraseIdx i).countP p + (if p w = true then 1 else 0) := by
  induction l generalizing i with
  | nil => simp at h
  | cons x xs ih =>
    cases i with
    | zero =>
      simp at h
      subst h
      simp [List.countP_cons]
    | succ i =>
      rw [List.getElem?_cons_succ] at h
      simp only [List.eraseIdx_cons_succ, List.countP_cons]
      rw [ih i h]
      omega

theorem intersect_loop_from_eq (first : Finset String) (rest : List (Finset String)) :
    intersect_loop_from first rest = [rest.foldl (fun a b => a ∩ b) first] := by
  induction rest generalizing first with
  | nil => rfl
  | cons b rest ih => simp [intersect_loop_from, ih]

theorem mem_foldl_inter (first : Finset String) (rest : List (Finset String)) (x : String) :
    x ∈ rest.foldl (fun a b => a ∩ b) first ↔ x ∈ first ∧ ∀ s ∈ rest, x ∈ s := by
  induction rest generalizing first with
  | nil => simp
  | cons b rest ih =>
    simp only [List.foldl_cons, ih, Finset.mem_inter, List.mem_cons, forall_eq_or_imp]
    tauto

theorem mem_intersect_loop_head (l : List (Finset String)) (x : String) :
    x ∈ (intersect_loop l).headD ∅ ↔ l ≠ [] ∧ ∀ s ∈ l, x ∈ s := by
  cases l with
  | nil => simp [intersect_loop]
  | cons a rest =>
    simp [intersect_loop, intersect_loop_from_eq, mem_foldl_inter]

theorem intersect_step_iterate (first : Finset String) (rest : List (Finset String)) :
    intersect_step^[rest.length] (first :: rest) = intersect_loop_from first rest := by
  induction rest generalizing first with
  | nil => rfl
  | cons b rest ih =>
    rw [List.length_cons, Function.iterate_succ_apply]
    exact ih (first ∩ b)

theorem intersect_step_iterate_length (l : List (Finset String)) (m : Nat)
    (hm : m + 1 < l.length) :
    (intersect_step^[m] l).length = l.length - m := by
  induction m generalizing l with
  | zero => simp
  | succ m ih =>
    rw [Function.iterate_succ_apply]
    match l, hm with
    | a :: b :: rest, hm =>
      simp only [intersect_step]
      rw [ih]
      · simp
      · simp at hm ⊢
        omega

theorem scan_bad_items_within_eq (layer : layer_level) (bp : bodypart_id) (l : List item)
    (acc : Finset String) :
    scan_bad_items_within layer bp l acc =
      acc ∪ ((l.filter (fun it => decide (layer < it.get_layer) && it.covers bp)).map
        item.type_name).toFinset := by
  induction l generalizing acc with
  | nil => simp [scan_bad_items_within]
  | cons x xs ih =>
    unfold scan_bad_items_within
    by_cases h : (decide (layer < x.get_layer) && x.covers bp) = true
    · have h' : (decide (x.get_layer > layer) && x.covers bp) = true := h
      rw [if_pos h', ih, List.filter_cons, if_pos h]
      ext n
      simp
    · have h' : ¬(decide (x.get_layer > layer) && x.covers bp) = true := h
      rw [if_neg h', ih, List.filter_cons, if_neg h]

theorem scan_eq_offender_names (c : Character) (i : Nat) (layer : layer_level)
    (bp : bodypart_id) :
    scan_bad_items_within layer bp (c.worn.take i) ∅ = offender_names c i layer bp := by
  rw [scan_bad_items_within_eq]
  simp [offender_names]

theorem mem_offender_names (c : Character) (i : Nat) (layer : layer_level)
    (bp : bodypart_id) (n : String) :
    n ∈ offender_names c i layer bp ↔
      ∃ (j : Nat) (a : item), j < i ∧ c.worn[j]? = some a ∧ layer < a.get_layer ∧
        a.covers bp = true ∧ a.type_name = n := by
  unfold offender_names
  simp only [List.mem_toFinset, List.mem_map, List.mem_filter, Bool.and_eq_true,
    decide_eq_true_eq]
  constructor
  · rintro ⟨a, ⟨hmem, hl, hc⟩, hn⟩
    obtain ⟨j, hj⟩ := List.mem_iff_getElem?.mp hmem
    rw [List.getElem?_take] at hj
    by_cases hji : j < i
    · rw [if_pos hji] at hj
      exact ⟨j, a, hji, hj, hl, hc, hn⟩
    · rw [if_neg hji] at hj
      cases hj
  · rintro ⟨j, a, hji, hj, hl, hc, hn⟩
    refine ⟨a, ⟨?_, hl, hc⟩, hn⟩
    apply List.mem_iff_getElem?.mpr
    refine ⟨j, ?_⟩
    rw [List.getElem?_take, if_pos hji]
    exact hj

theorem offender_names_nonempty_iff (c : Character) (i : Nat) (layer : layer_level)
    (bp : bodypart_id) :
    offender_names c i layer bp ≠ ∅ ↔
      ∃ (j : Nat) (a : item), j < i ∧ c.worn[j]? = some a ∧ layer < a.get_layer ∧
        a.covers bp = true := by
  rw [← Finset.nonempty_iff_ne_empty]
  constructor
  · rintro ⟨n, hn⟩
    obtain ⟨j, a, h1, h2, h3, h4, _⟩ := (mem_offender_names c i layer bp n).mp hn
    exact ⟨j, a, h1, h2, h3, h4⟩
  · rintro ⟨j, a, h1, h2, h3, h4⟩
    exact ⟨a.type_name, (mem_offender_names c i layer bp _).mpr ⟨j, a, h1, h2, h3, h4, rfl⟩⟩

theorem stacking_pred_iff (is_compact : item → Character → Bool) (c : Character)
    (layer : layer_level) (p : bodypart_id) (x : item) :
    stacking_pred is_compact layer p c x = true ↔ stacks_on is_compact c layer p x := by
  unfold stacking_pred stacks_on exempt
  simp only [Bool.and_eq_true, beq_iff_eq, Bool.not_eq_true', Bool.or_eq_false_iff,
    not_or, Bool.not_eq_true]
  tauto

theorem part_evaluated_iff (w : item) (q bp : bodypart_id) :
    part_evaluated w q bp = true ↔ ¬query_skipped q ∧ w.covers bp = true := by
  unfold part_evaluated query_skipped
  by_cases ht : q.token = 0 <;> cases hn : q.is_null <;> simp [ht, hn]

theorem stacking_marked_iff (is_compact : item → Character → Bool) (w : item)
    (c : Character) (q bp : bodypart_id) :
    stacking_marked is_compact w c q bp = true ↔
      (¬query_skipped q ∧ w.covers bp = true) ∧
        1 < c.worn.countP (stacking_pred is_compact w.get_layer bp c) := by
  unfold stacking_marked
  rw [Bool.and_eq_true, part_evaluated_iff, decide_eq_true_eq]

theorem out_of_order_marked_iff (i : Nat) (w : item) (c : Character) (q bp : bodypart_id) :
    out_of_order_marked i w c q bp = true ↔
      (¬query_skipped q ∧ w.covers bp = true) ∧
        offender_names c i w.get_layer bp ≠ ∅ := by
  unfold out_of_order_marked
  rw [Bool.and_eq_true, part_evaluated_iff, decide_eq_true_eq, scan_eq_offender_names]

/-- Membership in the stacking list returned at a valid position. -/
theorem mem_stacking_list (is_compact : item → Character → Bool) (i : Nat) (c : Character)
    (q : bodypart_id) (w : item) (hw : c.worn[i]? = some w) (p : bodypart_id) :
    ∃ r, get_item_penalties is_compact i c q = some r ∧
      (p ∈ r.body_parts_with_stacking_penalty ↔
        p ∈ c.get_all_body_parts ∧ ¬query_skipped q ∧ w.covers p = true ∧
          1 < c.worn.countP (stacking_pred is_compact w.get_layer p c)) := by
  refine ⟨_, get_item_penalties_eq is_compact i c q w hw, ?_⟩
  simp only [List.mem_filter, stacking_marked_iff]
  tauto

/-- Membership in the out-of-order list returned at a valid position. -/
theorem mem_out_of_order_list (is_compact : item → Character → Bool) (i : Nat)
    (c : Character) (q : bodypart_id) (w : item) (hw : c.worn[i]? = some w)
    (p : bodypart_id) :
    ∃ r, get_item_penalties is_compact i c q = some r ∧
      (p ∈ r.body_parts_with_out_of_order_penalty ↔
        p ∈ c.get_all_body_parts ∧ ¬query_skipped q ∧ w.covers p = true ∧
          offender_names c i w.get_layer p ≠ ∅) := by
  refine ⟨_, get_item_penalties_eq is_compact i c q w hw, ?_⟩
  simp only [List.mem_filter, out_of_order_marked_iff]
  tauto

theorem stacking_pred_eq_decide (is_compact : item → Character → Bool) (c : Character)
    (layer : layer_level) (p : bodypart_id) :
    stacking_pred is_compact layer p c =
      fun x => decide (stacks_on is_compact c layer p x) := by
  funext x
  by_cases h : stacks_on is_compact c layer p x
  · rw [(stacking_pred_iff is_compact c layer p x).mpr h]
    simp [h]
  · have : ¬stacking_pred is_compact layer p c x = true :=
      fun h' => h ((stacking_pred_iff is_compact c layer p x).mp h')
    simp [h, this]

/-! ### C1 -/

/-- C1: for every wear sequence, subject position and body part `p` of the wearer, with a
query part that does not trigger the skip at the top of the loop, `p` is in
`body_parts_with_stacking_penalty` if and only if the subject covers `p` and two different
positions of the whole worn sequence hold items that have the subject's layer, cover `p` and
are not exempt; the subject is counted too, so in a sequence `[A, B]` of two non-exempt
`REGULAR` items covering `p` both `A` and `B` report stacking on `p`. -/
theorem stacking_penalty_iff_two_items (is_compact : item → Character → Bool)
    (c : Character) (i : Nat) (w : item) (q p : bodypart_id)
    (hw : c.worn[i]? = some w) (hq : ¬query_skipped q) (hp : p ∈ c.get_all_body_parts) :
    (∃ r, get_item_penalties is_compact i c q = some r ∧
      (p ∈ r.body_parts_with_stacking_penalty ↔
        w.covers p = true ∧
          ∃ (j k : Nat) (a b : item), j < k ∧ c.worn[j]? = some a ∧ c.worn[k]? = some b ∧
            stacks_on is_compact c w.get_layer p a ∧
            stacks_on is_compact c w.get_layer p b)) ∧
    (∀ (A B : item) (parts : List bodypart_id),
      A.get_layer = REGULAR_LAYER → B.get_layer = REGULAR_LAYER →
      A.covers p = true → B.covers p = true → p ∈ parts →
      ¬exempt is_compact ⟨[A, B], parts⟩ A → ¬exempt is_compact ⟨[A, B], parts⟩ B →
      ∃ rA rB, get_item_penalties is_compact 0 ⟨[A, B], parts⟩ q = some rA ∧
        get_item_penalties is_compact 1 ⟨[A, B], parts⟩ q = some rB ∧
        p ∈ rA.body_parts_with_stacking_penalty ∧
        p ∈ rB.body_parts_with_stacking_penalty) := by
  constructor
  · obtain ⟨r, hr, hmem⟩ := mem_stacking_list is_compact i c q w hw p
    refine ⟨r, hr, ?_⟩
    rw [hmem, one_lt_countP_iff]
    simp only [stacking_pred_iff]
    exact ⟨fun h => ⟨h.2.2.1, h.2.2.2⟩, fun h => ⟨hp, hq, h.1, h.2⟩⟩
  · intro A B parts hA hB hcA hcB hparts heA heB
    have hcount : ∀ layer, layer = REGULAR_LAYER →
        1 < List.countP (stacking_pred is_compact layer p ⟨[A, B], parts⟩) [A, B] := by
      intro layer hl
      rw [one_lt_countP_iff]
      refine ⟨0, 1, A, B, by omega, rfl, rfl, ?_, ?_⟩
      · exact (stacking_pred_iff _ _ _ _ _).mpr ⟨by rw [hA, hl], hcA, heA⟩
      · exact (stacking_pred_iff _ _ _ _ _).mpr ⟨by rw [hB, hl], hcB, heB⟩
    obtain ⟨rA, hrA, hmA⟩ := mem_stacking_list is_compact 0 ⟨[A, B], parts⟩ q A rfl p
    obtain ⟨rB, hrB, hmB⟩ := mem_stacking_list is_compact 1 ⟨[A, B], parts⟩ q B rfl p
    exact ⟨rA, rB, hrA, hrB, hmA.mpr ⟨hparts, hq, hcA, hcount _ hA⟩,
      hmB.mpr ⟨hparts, hq, hcB, hcount _ hB⟩⟩

/-- Witness for C1: in the wear order `[shirt, vest]` the first shirt reports stacking on
the torso. -/
theorem stacking_penalty_iff_two_items_witness :
    ∃ r, get_item_penalties is_compact_flag 0 ⟨[shirt, vest], [torso]⟩ torso = some r ∧
      torso ∈ r.body_parts_with_stacking_penalty := by
  obtain ⟨r, hr, hiff⟩ :=
    (stacking_penalty_iff_two_items is_compact_flag ⟨[shirt, vest], [torso]⟩ 0 shirt torso
      torso rfl (by decide) (by decide)).1
  exact ⟨r, hr, hiff.mpr ⟨by decide, 0, 1, shirt, vest, by decide, rfl, rfl,
    by decide, by decide⟩⟩

/-! ### C2 -/

/-- C2, as stated, fails: in the wear order `[shirt, vest]` the shirt is marked as stacking
on the torso although only one item other than the shirt is at its layer on the torso. -/
theorem stacking_count_of_others_counterexample :
    ∃ r, get_item_penalties is_compact_flag 0 ⟨[shirt, vest], [torso]⟩ torso = some r ∧
      shirt.covers torso = true ∧
      ¬(torso ∈ r.body_parts_with_stacking_penalty ↔
        1 < count_others is_compact_flag ⟨[shirt, vest], [torso]⟩ 0 shirt.get_layer torso) :=
  ⟨_, rfl, by decide, by decide⟩

/-- C2 amended: for a body part `p` of the wearer that the subject covers and a query part
that passes the skip test, `p` is marked as stacking-penalised if and only if the number of
non-exempt worn items at the subject's layer covering `p`, the subject included, is greater
than 1: the count of the other items plus one when the subject itself is not exempt. -/
theorem stacking_count_includes_subject (is_compact : item → Character → Bool)
    (c : Character) (i : Nat) (w : item) (q p : bodypart_id)
    (hw : c.worn[i]? = some w) (hq : ¬query_skipped q) (hp : p ∈ c.get_all_body_parts)
    (hc : w.covers p = true) :
    ∃ r, get_item_penalties is_compact i c q = some r ∧
      (p ∈ r.body_parts_with_stacking_penalty ↔
        1 < count_others is_compact c i w.get_layer p +
          (if exempt is_compact c w then 0 else 1)) := by
  obtain ⟨r, hr, hmem⟩ := mem_stacking_list is_compact i c q w hw p
  refine ⟨r, hr, ?_⟩
  rw [hmem, countP_eraseIdx_add _ c.worn i w hw, stacking_pred_eq_decide]
  unfold count_others
  have hself : (decide (stacks_on is_compact c w.get_layer p w) = true) ↔
      ¬exempt is_compact c w := by
    simp [stacks_on, hc]
  by_cases he : exempt is_compact c w
  · rw [if_neg (fun h => (hself.mp h) he), if_pos he]
    tauto
  · rw [if_pos (hself.mpr he), if_neg he]
    tauto

/-- Witness for C2 amended: the shirt of `[shirt, vest]` has one other item at its layer on
the torso and is itself counted. -/
theorem stacking_count_includes_subject_witness :
    ∃ r, get_item_penalties is_compact_flag 0 ⟨[shirt, vest], [torso]⟩ torso = some r ∧
      (torso ∈ r.body_parts_with_stacking_penalty ↔
        1 < count_others is_compact_flag ⟨[shirt, vest], [torso]⟩ 0 shirt.get_layer torso +
          (if exempt is_compact_flag ⟨[shirt, vest], [torso]⟩ shirt then 0 else 1)) :=
  stacking_count_includes_subject is_compact_flag ⟨[shirt, vest], [torso]⟩ 0 shirt torso
    torso rfl (by decide) (by decide) (by decide)

/-! ### C3 -/

/-- C3 at a failing input: in the wear order `[coat, shirt]` the shirt covers the torso and
the coat before it has a greater layer and covers the torso.  Queried with the null part
`num_bp` of the "All" tab the shirt gets an empty out-of-order list, so the torso is not in
it, while the same call with the torso as query part lists the torso. -/
theorem null_query_drops_out_of_order_penalty :
    get_item_penalties is_compact_flag 1 ⟨[coat, shirt], [torso]⟩ num_bp =
        some ⟨[], [], ∅⟩ ∧
      [coat, shirt][1]? = some shirt ∧ shirt.covers torso = true ∧
      (∃ (j : Nat) (a : item), j < 1 ∧ [coat, shirt][j]? = some a ∧
        shirt.get_layer < a.get_layer ∧ a.covers torso = true) ∧
      (∃ r, get_item_penalties is_compact_flag 1 ⟨[coat, shirt], [torso]⟩ num_bp = some r ∧
        ¬(torso ∈ r.body_parts_with_out_of_order_penalty ↔
          ∃ (j : Nat) (a : item), j < 1 ∧ [coat, shirt][j]? = some a ∧
            shirt.get_layer < a.get_layer ∧ a.covers torso = true)) ∧
      get_item_penalties is_compact_flag 1 ⟨[coat, shirt], [torso]⟩ torso =
        some ⟨[], [torso], {"coat"}⟩ := by
  refine ⟨by decide, by decide, by decide, ⟨0, coat, by decide, rfl, by decide, by decide⟩,
    ⟨⟨[], [], ∅⟩, by decide, ?_⟩, by decide⟩
  intro h
  have hmem := h.mpr ⟨0, coat, by decide, rfl, by decide, by decide⟩
  exact absurd hmem (by decide)

/-- Away from the test at line 81 the out-of-order list is what the scan at lines 96-105
makes it: for a query part that passes the test, every subject position `i` and every body
part `p` of the wearer that the subject covers, `p` is in
`body_parts_with_out_of_order_penalty` if and only if some item at a position strictly
before `i` has a layer strictly greater than the subject's layer and covers `p`. -/
theorem out_of_order_iff_earlier_higher_layer (is_compact : item → Character → Bool)
    (c : Character) (i : Nat) (w : item) (q p : bodypart_id)
    (hw : c.worn[i]? = some w) (hq : ¬query_skipped q) (hp : p ∈ c.get_all_body_parts)
    (hc : w.covers p = true) :
    ∃ r, get_item_penalties is_compact i c q = some r ∧
      (p ∈ r.body_parts_with_out_of_order_penalty ↔
        ∃ (j : Nat) (a : item), j < i ∧ c.worn[j]? = some a ∧
          w.get_layer < a.get_layer ∧ a.covers p = true) := by
  obtain ⟨r, hr, hmem⟩ := mem_out_of_order_list is_compact i c q w hw p
  refine ⟨r, hr, ?_⟩
  rw [hmem, offender_names_nonempty_iff]
  exact ⟨fun h => h.2.2.2, fun h => ⟨hp, hq, hc, h⟩⟩

/-- In the order `[shirt, coat, vest]` (regular, outer, regular), all covering the torso, the
vest, queried with the torso, is out of order on the torso because of the coat. -/
theorem out_of_order_iff_earlier_higher_layer_witness :
    ∃ r, get_item_penalties is_compact_flag 2 ⟨[shirt, coat, vest], [torso]⟩ torso = some r ∧
      torso ∈ r.body_parts_with_out_of_order_penalty := by
  obtain ⟨r, hr, hiff⟩ :=
    out_of_order_iff_earlier_higher_layer is_compact_flag ⟨[shirt, coat, vest], [torso]⟩ 2
      vest torso torso rfl (by decide) (by decide) (by decide)
  exact ⟨r, hr, hiff.mpr ⟨1, coat, by decide, rfl, by decide, by decide⟩⟩

/-! ### C4 -/

/-- C4 at a failing input: with the wear order `[parka, hoodie, jumpsuit]`, every item
covering torso and head, the hoodie queried for the torso gets the head listed in both the
stacking list and the out-of-order list, and the head is not the queried part. -/
theorem query_part_does_not_restrict :
    get_item_penalties is_compact_flag 1 ⟨[parka, hoodie, jumpsuit], [torso, head]⟩ torso =
        some ⟨[torso, head], [torso, head], {"parka"}⟩ ∧
      head ≠ torso ∧ torso.is_null = false := by
  decide

/-! ### C5 -/

/-- C5: at every valid subject position, `bad_items_within` is the intersection of the
per-part offender-name sets over the out-of-order-penalised parts: a name is in it exactly
when there is such a part and the name is an offender on each of them.  It is empty when
there is no such part, it is that part's set when there is one, and it is empty when two
penalised parts have disjoint offender sets.  The `while` loop terminates: after some number
`n` of iterations the vector has at most one entry, every earlier state still had more than
one, and the result is read from the state after `n` iterations. -/
theorem bad_items_within_is_intersection (is_compact : item → Character → Bool)
    (c : Character) (i : Nat) (q : bodypart_id) (hi : i < c.worn.length) :
    ∃ r w, get_item_penalties is_compact i c q = some r ∧ c.worn[i]? = some w ∧
      (∀ n, n ∈ r.bad_items_within ↔
        r.body_parts_with_out_of_order_penalty ≠ [] ∧
          ∀ p ∈ r.body_parts_with_out_of_order_penalty,
            n ∈ offender_names c i w.get_layer p) ∧
      (r.body_parts_with_out_of_order_penalty = [] → r.bad_items_within = ∅) ∧
      (∀ p, r.body_parts_with_out_of_order_penalty = [p] →
        r.bad_items_within = offender_names c i w.get_layer p) ∧
      (∀ p1 ∈ r.body_parts_with_out_of_order_penalty,
        ∀ p2 ∈ r.body_parts_with_out_of_order_penalty,
          Disjoint (offender_names c i w.get_layer p1) (offender_names c i w.get_layer p2) →
          r.bad_items_within = ∅) ∧
      (∃ n : Nat,
        (intersect_step^[n] (r.body_parts_with_out_of_order_penalty.map
            (offender_names c i w.get_layer))).length ≤ 1 ∧
        (∀ m < n, 1 < (intersect_step^[m] (r.body_parts_with_out_of_order_penalty.map
            (offender_names c i w.get_layer))).length) ∧
        r.bad_items_within = (intersect_step^[n] (r.body_parts_with_out_of_order_penalty.map
            (offender_names c i w.get_layer))).headD ∅) := by
  have hw : c.worn[i]? = some c.worn[i] := List.getElem?_eq_getElem hi
  generalize c.worn[i] = w at hw
  have hres := get_item_penalties_eq is_compact i c q w hw
  simp only [scan_eq_offender_names] at hres
  refine ⟨_, w, hres, hw, ?_⟩
  simp only
  generalize c.get_all_body_parts.filter (out_of_order_marked i w c q) = ooo
  have hmain : ∀ n, n ∈ (intersect_loop (ooo.map (fun bp =>
      offender_names c i w.get_layer bp))).headD ∅ ↔
        ooo ≠ [] ∧ ∀ p ∈ ooo, n ∈ offender_names c i w.get_layer p := by
    intro n
    rw [mem_intersect_loop_head]
    simp
  refine ⟨hmain, ?_, ?_, ?_, ?_⟩
  · intro h
    subst h
    rfl
  · intro p h
    subst h
    rfl
  · intro p1 h1 p2 h2 hd
    ext n
    rw [hmain]
    constructor
    · rintro ⟨_, hall⟩
      exact absurd (hall p2 h2) (Finset.disjoint_left.mp hd (hall p1 h1))
    · intro h
      exact absurd h (Finset.not_mem_empty n)
  · cases ooo with
    | nil => exact ⟨0, by simp, by simp, rfl⟩
    | cons p ps =>
      refine ⟨ps.length, ?_, ?_, ?_⟩
      · have := intersect_step_iterate (offender_names c i w.get_layer p)
          (ps.map (offender_names c i w.get_layer))
        rw [List.length_map] at this
        rw [List.map_cons, this, intersect_loop_from_eq]
        simp
      · intro m hm
        rw [intersect_step_iterate_length]
        · simp
          omega
        · simp
          omega
      · have := intersect_step_iterate (offender_names c i w.get_layer p)
          (ps.map (offender_names c i w.get_layer))
        rw [List.length_map] at this
        rw [List.map_cons, this]
        rfl

/-- Witness for C5: the hoodie of `[parka, hoodie, jumpsuit]` is out of order on torso and
head, and the parka is the offender common to both parts. -/
theorem bad_items_within_is_intersection_witness :
    ∃ r, get_item_penalties is_compact_flag 1 ⟨[parka, hoodie, jumpsuit], [torso, head]⟩
        torso = some r ∧
      ("parka" ∈ r.bad_items_within ↔
        r.body_parts_with_out_of_order_penalty ≠ [] ∧
          ∀ p ∈ r.body_parts_with_out_of_order_penalty,
            "parka" ∈ offender_names ⟨[parka, hoodie, jumpsuit], [torso, head]⟩ 1
              hoodie.get_layer p) := by
  obtain ⟨r, w, hr, hw, hall, _⟩ :=
    bad_items_within_is_intersection is_compact_flag
      ⟨[parka, hoodie, jumpsuit], [torso, head]⟩ 1 torso (by decide)
  have hw' : w = hoodie := by
    have : some hoodie = some w := hw
    exact (Option.some.inj this).symm
  subst hw'
  exact ⟨r, hr, hall "parka"⟩

/-! ### C6 -/

/-- C6, as stated, fails: with the coat (layer `OUTER`) worn before the shirt (layer
`REGULAR`), both covering the torso, the shirt does report the torso as
out-of-order-penalised. -/
theorem lower_layer_after_higher_counterexample :
    ∃ r, get_item_penalties is_compact_flag 1 ⟨[coat, shirt], [torso]⟩ torso = some r ∧
      coat.get_layer = OUTER_LAYER ∧ shirt.get_layer = REGULAR_LAYER ∧
      coat.covers torso = true ∧ shirt.covers torso = true ∧
      ¬(torso ∉ r.body_parts_with_out_of_order_penalty) :=
  ⟨⟨[], [torso], {"coat"}⟩, by decide, by decide, by decide, by decide, by decide, by decide⟩

/-- C6 amended: for a wear order in which item `A` (layer `OUTER`) is worn before item `B`
(layer `REGULAR`) and both cover the part `p` of the wearer, `get_item_penalties` for `B`,
called with a query part that passes the skip test, reports `p` as out-of-order-penalised,
and the name of `A` is among the offenders recorded for `p`. -/
theorem lower_layer_after_higher_is_out_of_order (is_compact : item → Character → Bool)
    (c : Character) (a b : Nat) (A B : item) (q p : bodypart_id)
    (hab : a < b) (hA : c.worn[a]? = some A) (hB : c.worn[b]? = some B)
    (hlA : A.get_layer = OUTER_LAYER) (hlB : B.get_layer = REGULAR_LAYER)
    (hcA : A.covers p = true) (hcB : B.covers p = true)
    (hq : ¬query_skipped q) (hp : p ∈ c.get_all_body_parts) :
    ∃ r, get_item_penalties is_compact b c q = some r ∧
      p ∈ r.body_parts_with_out_of_order_penalty ∧
      A.type_name ∈ offender_names c b B.get_layer p := by
  obtain ⟨r, hr, hmem⟩ := mem_out_of_order_list is_compact b c q B hB p
  have hlt : B.get_layer < A.get_layer := by
    rw [hlA, hlB]
    decide
  refine ⟨r, hr, hmem.mpr ⟨hp, hq, hcB, ?_⟩, ?_⟩
  · exact (offender_names_nonempty_iff c b B.get_layer p).mpr ⟨a, A, hab, hA, hlt, hcA⟩
  · exact (mem_offender_names c b B.get_layer p _).mpr ⟨a, A, hab, hA, hlt, hcA, rfl⟩

/-- Witness for C6 amended: the shirt worn after the coat is out of order on the torso. -/
theorem lower_layer_after_higher_is_out_of_order_witness :
    ∃ r, get_item_penalties is_compact_flag 1 ⟨[coat, shirt], [torso]⟩ torso = some r ∧
      torso ∈ r.body_parts_with_out_of_order_penalty ∧
      coat.type_name ∈ offender_names ⟨[coat, shirt], [torso]⟩ 1 shirt.get_layer torso :=
  lower_layer_after_higher_is_out_of_order is_compact_flag ⟨[coat, shirt], [torso]⟩ 0 1
    coat shirt torso torso (by decide) rfl rfl rfl rfl (by decide) (by decide) (by decide)
    (by decide)

/-! ### C7 -/

theorem getElem?_insertIdx_self {α : Type} (x : α) (l : List α) (k : Nat)
    (hk : k ≤ l.length) : (l.insertIdx k x)[k]? = some x := by
  induction l generalizing k with
  | nil =>
    have : k = 0 := by simpa using hk
    subst this
    rfl
  | cons y ys ih =>
    cases k with
    | zero => rfl
    | succ k =>
      rw [List.insertIdx_succ_cons, List.getElem?_cons_succ]
      exact ih k (by simpa using hk)

theorem getElem?_insertIdx_of_lt {α : Type} (x : α) (l : List α) (k j : Nat)
    (hj : j < k) : (l.insertIdx k x)[j]? = l[j]? := by
  induction l generalizing k j with
  | nil =>
    cases k with
    | zero => omega
    | succ k => rfl
  | cons y ys ih =>
    cases k with
    | zero => omega
    | succ k =>
      rw [List.insertIdx_succ_cons]
      cases j with
      | zero => simp
      | succ j =>
        rw [List.getElem?_cons_succ, List.getElem?_cons_succ]
        exact ih k j (by omega)

theorem getElem?_insertIdx_of_ge {α : Type} (x : α) (l : List α) (k j : Nat)
    (hk : k ≤ j) (hj : j < l.length) : (l.insertIdx k x)[j + 1]? = l[j]? := by
  induction l generalizing k j with
  | nil => simp at hj
  | cons y ys ih =>
    cases k with
    | zero => rw [List.insertIdx_zero, List.getElem?_cons_succ]
    | succ k =>
      rw [List.insertIdx_succ_cons]
      cases j with
      | zero => omega
      | succ j =>
        rw [List.getElem?_cons_succ, List.getElem?_cons_succ]
        exact ih k j (by omega) (by simpa using hj)

/-- C7 at a failing input: the shirt is the only non-exempt item of its layer on the torso
and has no stacking penalty there; the vest is a second non-exempt item of that layer
covering the torso.  With the vest added, the shirt queried with the null part `num_bp` of
the "All" tab still has no stacking penalty on the torso, while the same call with the
torso as query part lists the torso. -/
theorem null_query_drops_added_stacking_penalty :
    stacks_on is_compact_flag ⟨[shirt], [torso]⟩ shirt.get_layer torso shirt ∧
      count_others is_compact_flag ⟨[shirt], [torso]⟩ 0 shirt.get_layer torso = 0 ∧
      get_item_penalties is_compact_flag 0 ⟨[shirt], [torso]⟩ num_bp = some ⟨[], [], ∅⟩ ∧
      stacks_on is_compact_flag ⟨[shirt].insertIdx 1 vest, [torso]⟩ shirt.get_layer torso
        vest ∧
      ([shirt].insertIdx 1 vest)[0]? = some shirt ∧
      (∃ r, get_item_penalties is_compact_flag 0 ⟨[shirt].insertIdx 1 vest, [torso]⟩ num_bp =
          some r ∧
        torso ∉ r.body_parts_with_stacking_penalty) ∧
      get_item_penalties is_compact_flag 0 ⟨[shirt].insertIdx 1 vest, [torso]⟩ torso =
        some ⟨[torso], [], ∅⟩ :=
  ⟨by decide, by decide, by decide, by decide, by decide,
    ⟨⟨[], [], ∅⟩, by decide, by decide⟩, by decide⟩

/-- Away from the test at line 81 a second item brings the stacking penalty and its removal
takes it away: let the subject `w` at position `i` be non-exempt, cover the part `p` of the
wearer and be the only non-exempt item of its layer covering `p`.  Then the subject has no
stacking penalty on `p` (for every query part); after a second non-exempt item `x` of the
same layer covering `p` is inserted at any position `k`, the subject, now at position
`i + 1` when `k ≤ i` and at `i` otherwise, has a stacking penalty on `p` for every query
part that passes the skip test; and after `x` is removed again the subject's stacking
penalty on `p` is gone. -/
theorem add_then_remove_second_item (is_compact : item → Character → Bool)
    (c : Character) (i k : Nat) (w x : item) (q p : bodypart_id)
    (hw : c.worn[i]? = some w) (hk : k ≤ c.worn.length) (hp : p ∈ c.get_all_body_parts)
    (hq : ¬query_skipped q)
    (hsub : stacks_on is_compact c w.get_layer p w)
    (honly : count_others is_compact c i w.get_layer p = 0)
    (hsub' : ¬exempt is_compact ⟨c.worn.insertIdx k x, c.all_body_parts⟩ w)
    (hx : stacks_on is_compact ⟨c.worn.insertIdx k x, c.all_body_parts⟩ w.get_layer p x) :
    (∀ q0, ∃ r, get_item_penalties is_compact i c q0 = some r ∧
      p ∉ r.body_parts_with_stacking_penalty) ∧
    (∃ r, get_item_penalties is_compact (if k ≤ i then i + 1 else i)
        ⟨c.worn.insertIdx k x, c.all_body_parts⟩ q = some r ∧
      (c.worn.insertIdx k x)[if k ≤ i then i + 1 else i]? = some w ∧
      p ∈ r.body_parts_with_stacking_penalty) ∧
    (∀ q0, ∃ r, get_item_penalties is_compact i
        ⟨(c.worn.insertIdx k x).eraseIdx k, c.all_body_parts⟩ q0 = some r ∧
      p ∉ r.body_parts_with_stacking_penalty) := by
  have hi : i < c.worn.length := by
    by_contra h
    rw [List.getElem?_eq_none (by omega)] at hw
    cases hw
  have hbefore : ∀ q0, ∃ r, get_item_penalties is_compact i c q0 = some r ∧
      p ∉ r.body_parts_with_stacking_penalty := by
    intro q0
    obtain ⟨r, hr, hmem⟩ := mem_stacking_list is_compact i c q0 w hw p
    refine ⟨r, hr, ?_⟩
    rw [hmem, countP_eraseIdx_add _ c.worn i w hw, stacking_pred_eq_decide]
    unfold count_others at honly
    rw [honly]
    rintro ⟨_, _, _, h⟩
    split at h <;> omega
  refine ⟨hbefore, ?_, ?_⟩
  · have hpos : (c.worn.insertIdx k x)[if k ≤ i then i + 1 else i]? = some w := by
      by_cases hki : k ≤ i
      · rw [if_pos hki, getElem?_insertIdx_of_ge x c.worn k i hki hi]
        exact hw
      · rw [if_neg hki, getElem?_insertIdx_of_lt x c.worn k i (by omega)]
        exact hw
    obtain ⟨r, hr, hmem⟩ := mem_stacking_list is_compact (if k ≤ i then i + 1 else i)
      ⟨c.worn.insertIdx k x, c.all_body_parts⟩ q w hpos p
    refine ⟨r, hr, hpos, hmem.mpr ⟨hp, hq, hsub.2.1, ?_⟩⟩
    rw [one_lt_countP_iff]
    have hxk : (c.worn.insertIdx k x)[k]? = some x := getElem?_insertIdx_self x c.worn k hk
    have hpw := (stacking_pred_iff is_compact ⟨c.worn.insertIdx k x, c.all_body_parts⟩
      w.get_layer p w).mpr ⟨rfl, hsub.2.1, hsub'⟩
    have hpx := (stacking_pred_iff is_compact ⟨c.worn.insertIdx k x, c.all_body_parts⟩
      w.get_layer p x).mpr hx
    by_cases hki : k ≤ i
    · rw [if_pos hki] at hpos
      exact ⟨k, i + 1, x, w, by omega, hxk, hpos, hpx, hpw⟩
    · rw [if_neg hki] at hpos
      exact ⟨i, k, w, x, by omega, hpos, hxk, hpw, hpx⟩
  · rw [List.eraseIdx_insertIdx]
    exact hbefore

/-- A lone shirt queried with the torso, then the vest put on over it, then taken off. -/
theorem add_then_remove_second_item_witness :
    (∀ q0, ∃ r, get_item_penalties is_compact_flag 0 ⟨[shirt], [torso]⟩ q0 = some r ∧
      torso ∉ r.body_parts_with_stacking_penalty) ∧
    (∃ r, get_item_penalties is_compact_flag (if 1 ≤ 0 then 0 + 1 else 0)
        ⟨[shirt].insertIdx 1 vest, [torso]⟩ torso = some r ∧
      ([shirt].insertIdx 1 vest)[if 1 ≤ 0 then 0 + 1 else 0]? = some shirt ∧
      torso ∈ r.body_parts_with_stacking_penalty) ∧
    (∀ q0, ∃ r, get_item_penalties is_compact_flag 0
        ⟨([shirt].insertIdx 1 vest).eraseIdx 1, [torso]⟩ q0 = some r ∧
      torso ∉ r.body_parts_with_stacking_penalty) :=
  add_then_remove_second_item is_compact_flag ⟨[shirt], [torso]⟩ 0 1 shirt vest torso torso
    rfl (by decide) (by decide) (by decide) (by decide) (by decide) (by decide) (by decide)

/-! ### C8 -/

/-- C8: for every `item_penalties` value, `badness()` is one point for a non-empty stacking
list plus one point for a non-empty out-of-order list, hence one of 0, 1, 2, and it does not
depend on `bad_items_within`. -/
theorem badness_eq_points (r : item_penalties) :
    r.badness =
        (if r.body_parts_with_stacking_penalty ≠ [] then 1 else 0) +
          (if r.body_parts_with_out_of_order_penalty ≠ [] then 1 else 0) ∧
      (r.badness = 0 ∨ r.badness = 1 ∨ r.badness = 2) ∧
      ∀ s : Finset String, ({ r with bad_items_within := s } : item_penalties).badness =
        r.badness := by
  obtain ⟨stk, ooo, bad⟩ := r
  refine ⟨?_, ?_, fun s => rfl⟩
  · cases stk <;> cases ooo <;> simp [item_penalties.badness]
  · cases stk <;> cases ooo <;> simp [item_penalties.badness]

/-! ### C9 -/

theorem stable_insert_perm (x : item) (l : List item) :
    (stable_insert layer_less x l).Perm (x :: l) := by
  induction l with
  | nil => exact List.Perm.refl _
  | cons y ys ih =>
    unfold stable_insert
    split
    · exact (List.Perm.cons y ih).trans (List.Perm.swap x y ys)
    · exact List.Perm.refl _

theorem mem_stable_insert (x z : item) (l : List item) :
    z ∈ stable_insert layer_less x l ↔ z = x ∨ z ∈ l := by
  rw [(stable_insert_perm x l).mem_iff, List.mem_cons]

theorem stable_insert_sorted (x : item) (l : List item)
    (h : l.Pairwise (fun a b => a.get_layer ≤ b.get_layer)) :
    (stable_insert layer_less x l).Pairwise (fun a b => a.get_layer ≤ b.get_layer) := by
  induction l with
  | nil => simp [stable_insert]
  | cons y ys ih =>
    rw [List.pairwise_cons] at h
    unfold stable_insert
    by_cases hc : layer_less y x = true
    · rw [if_pos hc, List.pairwise_cons]
      refine ⟨?_, ih h.2⟩
      intro z hz
      rcases (mem_stable_insert x z ys).mp hz with hz | hz
      · subst hz
        have : y.get_layer < z.get_layer := by simpa [layer_less] using hc
        exact Nat.le_of_lt this
      · exact h.1 z hz
    · rw [if_neg hc, List.pairwise_cons, List.pairwise_cons]
      have hxy : x.get_layer ≤ y.get_layer := by
        have : ¬y.get_layer < x.get_layer := by simpa [layer_less] using hc
        exact Nat.le_of_not_lt this
      refine ⟨?_, h⟩
      intro z hz
      rcases List.mem_cons.mp hz with hz | hz
      · subst hz
        exact hxy
      · exact le_trans hxy (h.1 z hz)

theorem stable_insert_filter (k : layer_level) (x : item) (l : List item) :
    (stable_insert layer_less x l).filter (fun a => decide (a.get_layer = k)) =
      (x :: l).filter (fun a => decide (a.get_layer = k)) := by
  induction l with
  | nil => rfl
  | cons y ys ih =>
    unfold stable_insert
    by_cases hc : layer_less y x = true
    · rw [if_pos hc]
      have hlt : y.get_layer < x.get_layer := by simpa [layer_less] using hc
      rw [List.filter_cons, ih]
      by_cases hx : x.get_layer = k
      · have hy : ¬y.get_layer = k := by
          intro hy
          rw [hx, hy] at hlt
          exact absurd hlt (Nat.lt_irrefl k)
        simp [List.filter_cons, hx, hy]
      · by_cases hy : y.get_layer = k <;> simp [List.filter_cons, hx, hy]
    · rw [if_neg hc]

/-- C9: the `SORT_ARMOR` action replaces the worn sequence by its stable sort on layer: the
result is a permutation of the input, the layers are non-decreasing from first to last, and
for every layer the items of that layer come in the same order as before; a sequence of an
outer, a regular and a skintight item becomes skintight, regular, outer. -/
theorem sort_armor_is_stable_sort (worn : List item) :
    (sort_armor worn).Perm worn ∧
      (sort_armor worn).Pairwise (fun a b => a.get_layer ≤ b.get_layer) ∧
      (∀ k : layer_level, (sort_armor worn).filter (fun a => decide (a.get_layer = k)) =
        worn.filter (fun a => decide (a.get_layer = k))) ∧
      (∀ o r s : item, o.get_layer = OUTER_LAYER → r.get_layer = REGULAR_LAYER →
        s.get_layer = UNDERWEAR_LAYER → sort_armor [o, r, s] = [s, r, o]) := by
  refine ⟨?_, ?_, ?_, ?_⟩
  · induction worn with
    | nil => exact List.Perm.refl _
    | cons x xs ih =>
      exact (stable_insert_perm x _).trans (List.Perm.cons x ih)
  · induction worn with
    | nil => exact List.Pairwise.nil
    | cons x xs ih => exact stable_insert_sorted x _ ih
  · intro k
    induction worn with
    | nil => rfl
    | cons x xs ih =>
      show (stable_insert layer_less x (stable_sort layer_less xs)).filter _ = _
      rw [stable_insert_filter, List.filter_cons, List.filter_cons]
      have ih' : (stable_sort layer_less xs).filter (fun a => decide (a.get_layer = k)) =
          xs.filter (fun a => decide (a.get_layer = k)) := ih
      rw [ih']
  · intro o r s ho hr hs
    simp [sort_armor, stable_sort, stable_insert, layer_less, ho, hr, hs, OUTER_LAYER,
      REGULAR_LAYER, UNDERWEAR_LAYER]

/-! ### C10 -/

/-- C10, as stated, fails: on the "All" tab with three items worn and the first one grabbed
at the cursor, `UP` wraps the cursor to the last row and `shift_selected_item` exchanges the
items at positions 0 and 2 of the worn sequence, which are not adjacent. -/
theorem grabbed_swap_adjacent_counterexample :
    (rebuild_tmp_worn grabbed_first_of_three num_bp).selected ≥ 0 ∧
      (handle_UP (rebuild_tmp_worn grabbed_first_of_three num_bp)).map (fun s => s.worn) =
        some [vest, coat, shirt] ∧
      ∃ a b : Nat,
        shift_positions (cursor_up (rebuild_tmp_worn grabbed_first_of_three num_bp)) =
          some (a, b) ∧
        ¬(a + 1 = b ∨ b + 1 = a) :=
  ⟨by decide, by decide, 0, 2, by decide, by decide⟩

theorem build_tmp_worn_all_eq (l : List item) (i : Nat) :
    build_tmp_worn_all l i = List.range' i l.length := by
  induction l generalizing i with
  | nil => rfl
  | cons x xs ih => simp [build_tmp_worn_all, ih, List.range'_succ]

theorem build_tmp_worn_part_bound (bp : bodypart_id) (l : List item) (i : Nat) :
    ∀ x ∈ build_tmp_worn_part bp l i, x < i + l.length := by
  induction l generalizing i with
  | nil => simp [build_tmp_worn_part]
  | cons y ys ih =>
    intro x hx
    unfold build_tmp_worn_part at hx
    split at hx
    · rcases List.mem_cons.mp hx with h | h
      · subst h
        simp
      · have := ih (i + 1) x h
        simp only [List.length_cons]
        omega
    · have := ih (i + 1) x hx
      simp only [List.length_cons]
      omega

theorem rebuild_tmp_worn_bound (s0 : layers_ui) (bp : bodypart_id) :
    ∀ x ∈ (rebuild_tmp_worn s0 bp).tmp_worn, x < (rebuild_tmp_worn s0 bp).worn.length := by
  intro x hx
  unfold rebuild_tmp_worn at hx ⊢
  simp only at hx ⊢
  split at hx
  · rw [build_tmp_worn_all_eq] at hx
    have := (List.mem_range'_1.mp hx).2
    omega
  · have := build_tmp_worn_part_bound bp s0.worn 0 x hx
    omega

theorem rebuild_tmp_worn_size (s0 : layers_ui) (bp : bodypart_id) :
    (rebuild_tmp_worn s0 bp).leftListSize = ((rebuild_tmp_worn s0 bp).tmp_worn.length : Int) :=
  rfl

theorem rebuild_tmp_worn_all_getElem? (s0 : layers_ui) (bp : bodypart_id)
    (hbp : bp.is_null = true) (j x : Nat)
    (h : (rebuild_tmp_worn s0 bp).tmp_worn[j]? = some x) : x = j := by
  unfold rebuild_tmp_worn at h
  simp only [hbp, if_true, build_tmp_worn_all_eq] at h
  by_cases hlt : j < s0.worn.length
  · rw [List.getElem?_range' _ _ hlt] at h
    simp at h
    omega
  · rw [List.getElem?_eq_none] at h
    · cases h
    · simp
      omega

theorem cursor_up_of_pos (s : layers_ui) (h : 0 < s.leftListIndex) :
    (cursor_up s).leftListIndex = s.leftListIndex - 1 ∧ (cursor_up s).selected = s.selected ∧
      (cursor_up s).tmp_worn = s.tmp_worn ∧ (cursor_up s).worn = s.worn ∧
      (cursor_up s).leftListSize = s.leftListSize := by
  unfold cursor_up
  rw [if_pos h]
  simp only
  split <;> simp

theorem cursor_down_of_lt (s : layers_ui) (h : s.leftListIndex + 1 < s.leftListSize) :
    (cursor_down s).leftListIndex = s.leftListIndex + 1 ∧
      (cursor_down s).selected = s.selected ∧
      (cursor_down s).tmp_worn = s.tmp_worn ∧ (cursor_down s).worn = s.worn ∧
      (cursor_down s).leftListSize = s.leftListSize := by
  unfold cursor_down
  rw [if_pos h]
  simp only
  split <;> simp

theorem shift_selected_item_rows (s : layers_ui) (a b : Nat)
    (hsel : 0 ≤ s.selected) (hidx : 0 ≤ s.leftListIndex)
    (ha : s.tmp_worn[s.selected.toNat]? = some a)
    (hb : s.tmp_worn[s.leftListIndex.toNat]? = some b)
    (hbound : ∀ x ∈ s.tmp_worn, x < s.worn.length) :
    shift_positions s = some (a, b) ∧
      ∃ wa wb s', s.worn[a]? = some wa ∧ s.worn[b]? = some wb ∧
        shift_selected_item s = some s' ∧ s'.worn = (s.worn.set a wb).set b wa := by
  have hpos : shift_positions s = some (a, b) := by
    unfold shift_positions access_tmp_worn
    rw [if_pos hsel, if_pos hidx, ha, hb]
  have hla : a < s.worn.length := hbound a (List.mem_iff_getElem?.mpr ⟨_, ha⟩)
  have hlb : b < s.worn.length := hbound b (List.mem_iff_getElem?.mpr ⟨_, hb⟩)
  have hsh : ∃ s', shift_selected_item s = some s' ∧
      s'.worn = (s.worn.set a s.worn[b]).set b s.worn[a] := by
    unfold shift_selected_item
    rw [if_pos hsel, hpos]
    simp only [List.getElem?_eq_getElem hla, List.getElem?_eq_getElem hlb]
    exact ⟨_, rfl, rfl⟩
  obtain ⟨s', hs1, hs2⟩ := hsh
  exact ⟨hpos, s.worn[a], s.worn[b], s', List.getElem?_eq_getElem hla,
    List.getElem?_eq_getElem hlb, hs1, hs2⟩

theorem rebuild_tmp_worn_index_lt (s0 : layers_ui) (bp : bodypart_id)
    (hne : 0 < (rebuild_tmp_worn s0 bp).leftListSize) :
    (rebuild_tmp_worn s0 bp).leftListIndex < (rebuild_tmp_worn s0 bp).leftListSize := by
  unfold rebuild_tmp_worn at hne ⊢
  simp only at hne ⊢
  omega

/-- C10 amended: when the grabbed item is the one at the cursor (`selected == leftListIndex`,
`selected >= 0`) on a non-empty list and the cursor does not wrap around (`leftListIndex > 0`
for `UP`, `leftListIndex + 1 < leftListSize` for `DOWN`), `shift_selected_item` exchanges the
worn positions stored in two neighbouring rows of `tmp_worn`, the old cursor row and the row
above (`UP`) or below (`DOWN`), and the action succeeds with exactly these two items of the
worn sequence exchanged; on the "All" tab these two positions of the worn sequence differ
by exactly 1. -/
theorem grabbed_swap_neighbouring_rows (s0 : layers_ui) (bp : bodypart_id)
    (hgrab : 0 ≤ (rebuild_tmp_worn s0 bp).selected)
    (hcur : (rebuild_tmp_worn s0 bp).selected = (rebuild_tmp_worn s0 bp).leftListIndex)
    (hne : 0 < (rebuild_tmp_worn s0 bp).leftListSize) :
    (0 < (rebuild_tmp_worn s0 bp).leftListIndex →
      ∃ (a b : Nat) (wa wb : item) (s' : layers_ui),
        (rebuild_tmp_worn s0 bp).tmp_worn[(rebuild_tmp_worn s0 bp).leftListIndex.toNat]? =
          some a ∧
        (rebuild_tmp_worn s0 bp).tmp_worn[(rebuild_tmp_worn s0 bp).leftListIndex.toNat - 1]? =
          some b ∧
        shift_positions (cursor_up (rebuild_tmp_worn s0 bp)) = some (a, b) ∧
        s0.worn[a]? = some wa ∧ s0.worn[b]? = some wb ∧
        handle_UP (rebuild_tmp_worn s0 bp) = some s' ∧
        s'.worn = (s0.worn.set a wb).set b wa ∧
        (bp.is_null = true → a = b + 1)) ∧
    ((rebuild_tmp_worn s0 bp).leftListIndex + 1 < (rebuild_tmp_worn s0 bp).leftListSize →
      ∃ (a b : Nat) (wa wb : item) (s' : layers_ui),
        (rebuild_tmp_worn s0 bp).tmp_worn[(rebuild_tmp_worn s0 bp).leftListIndex.toNat]? =
          some a ∧
        (rebuild_tmp_worn s0 bp).tmp_worn[(rebuild_tmp_worn s0 bp).leftListIndex.toNat + 1]? =
          some b ∧
        shift_positions (cursor_down (rebuild_tmp_worn s0 bp)) = some (a, b) ∧
        s0.worn[a]? = some wa ∧ s0.worn[b]? = some wb ∧
        handle_DOWN (rebuild_tmp_worn s0 bp) = some s' ∧
        s'.worn = (s0.worn.set a wb).set b wa ∧
        (bp.is_null = true → b = a + 1)) := by
  have hworn : (rebuild_tmp_worn s0 bp).worn = s0.worn := rfl
  have hbound := rebuild_tmp_worn_bound s0 bp
  have hsize := rebuild_tmp_worn_size s0 bp
  have hlt := rebuild_tmp_worn_index_lt s0 bp hne
  have hall := rebuild_tmp_worn_all_getElem? s0 bp
  generalize rebuild_tmp_worn s0 bp = s at *
  have hidx0 : 0 ≤ s.leftListIndex := hcur ▸ hgrab
  have hrow : s.leftListIndex.toNat < s.tmp_worn.length := by omega
  constructor
  · intro hpos
    obtain ⟨hi, hs, ht, hw, hz⟩ := cursor_up_of_pos s hpos
    have hrow' : s.leftListIndex.toNat - 1 < s.tmp_worn.length := by omega
    have ha : s.tmp_worn[s.leftListIndex.toNat]? = some s.tmp_worn[s.leftListIndex.toNat] :=
      List.getElem?_eq_getElem hrow
    have hb : s.tmp_worn[s.leftListIndex.toNat - 1]? =
        some s.tmp_worn[s.leftListIndex.toNat - 1] := List.getElem?_eq_getElem hrow'
    have htn : (s.leftListIndex - 1).toNat = s.leftListIndex.toNat - 1 := by omega
    obtain ⟨hp, wa, wb, s', hwa, hwb, hsh, hs'⟩ :=
      shift_selected_item_rows (cursor_up s) s.tmp_worn[s.leftListIndex.toNat]
        s.tmp_worn[s.leftListIndex.toNat - 1]
        (by rw [hs]; exact hgrab) (by rw [hi]; omega)
        (by rw [hs, ht, hcur]; exact ha) (by rw [hi, ht, htn]; exact hb)
        (by rw [ht, hw]; exact hbound)
    rw [hw, hworn] at hwa hwb hs'
    refine ⟨_, _, wa, wb, s', ha, hb, hp, hwa, hwb, ?_, hs', ?_⟩
    · unfold handle_UP
      rw [if_pos hne]
      exact hsh
    · intro hnull
      have h1 := hall hnull _ _ ha
      have h2 := hall hnull _ _ hb
      omega
  · intro hpos
    obtain ⟨hi, hs, ht, hw, hz⟩ := cursor_down_of_lt s hpos
    have hrow' : s.leftListIndex.toNat + 1 < s.tmp_worn.length := by omega
    have ha : s.tmp_worn[s.leftListIndex.toNat]? = some s.tmp_worn[s.leftListIndex.toNat] :=
      List.getElem?_eq_getElem hrow
    have hb : s.tmp_worn[s.leftListIndex.toNat + 1]? =
        some s.tmp_worn[s.leftListIndex.toNat + 1] := List.getElem?_eq_getElem hrow'
    have htn : (s.leftListIndex + 1).toNat = s.leftListIndex.toNat + 1 := by omega
    obtain ⟨hp, wa, wb, s', hwa, hwb, hsh, hs'⟩ :=
      shift_selected_item_rows (cursor_down s) s.tmp_worn[s.leftListIndex.toNat]
        s.tmp_worn[s.leftListIndex.toNat + 1]
        (by rw [hs]; exact hgrab) (by rw [hi]; omega)
        (by rw [hs, ht, hcur]; exact ha) (by rw [hi, ht, htn]; exact hb)
        (by rw [ht, hw]; exact hbound)
    rw [hw, hworn] at hwa hwb hs'
    refine ⟨_, _, wa, wb, s', ha, hb, hp, hwa, hwb, ?_, hs', ?_⟩
    · unfold handle_DOWN
      rw [if_pos hne]
      exact hsh
    · intro hnull
      have h1 := hall hnull _ _ ha
      have h2 := hall hnull _ _ hb
      omega

/-- Witness for C10 amended: on the "All" tab with the second of three items grabbed at the
cursor, `UP` exchanges two positions of the worn sequence that differ by exactly 1. -/
theorem grabbed_swap_neighbouring_rows_witness :
    ∃ (a b : Nat) (s' : layers_ui),
      shift_positions (cursor_up (rebuild_tmp_worn grabbed_second_of_three num_bp)) =
        some (a, b) ∧
      handle_UP (rebuild_tmp_worn grabbed_second_of_three num_bp) = some s' ∧
      a = b + 1 := by
  obtain ⟨a, b, _, _, s', _, _, hp, _, _, hh, _, hn⟩ :=
    (grabbed_swap_neighbouring_rows grabbed_second_of_three num_bp (by decide) (by decide)
      (by decide)).1 (by decide)
  exact ⟨a, b, s', hp, hh, hn rfl⟩

/-! ### C11 -/

theorem tmod_succ_of_lt (t n : Int) (h0 : 0 ≤ t) (h1 : t < n) :
    (t + 1).tmod n = (t + 1) % n ∧ 0 ≤ (t + 1).tmod n ∧ (t + 1).tmod n < n ∧
      (t + 1 < n → (t + 1).tmod n = t + 1) ∧ (t + 1 = n → (t + 1).tmod n = 0) := by
  have hn : 0 ≤ n := by omega
  have he : (t + 1).tmod n = (t + 1) % n := Int.tmod_eq_emod (by omega) hn
  rw [he]
  by_cases hlt : t + 1 < n
  · have := Int.emod_eq_of_lt (by omega : 0 ≤ t + 1) hlt
    rw [this]
    refine ⟨rfl, by omega, hlt, fun _ => rfl, fun h => by omega⟩
  · have heq : t + 1 = n := by omega
    rw [heq, Int.emod_self]
    refine ⟨rfl, le_refl 0, by omega, fun h => by omega, fun _ => rfl⟩

theorem emod_pred_of_lt (t n : Int) (h0 : 0 ≤ t) (h1 : t < n) :
    (t - 1) % n = if t - 1 < 0 then n - 1 else t - 1 := by
  by_cases h : t - 1 < 0
  · rw [if_pos h]
    have ht : t = 0 := by omega
    subst ht
    have : (0 - 1 : Int) % n = (n - 1) % n := by
      rw [show (n - 1 : Int) = (0 - 1) + n by ring, Int.add_emod_self]
    rw [this]
    exact Int.emod_eq_of_lt (by omega) (by omega)
  · rw [if_neg h]
    exact Int.emod_eq_of_lt (by omega) (by omega)

/-- C11: with `tabindex` in `[0, tabcount)`, `LEFT` and `RIGHT` set `leftListIndex = 0`,
`leftListOffset = 0` and `selected = -1`, move `tabindex` by -1 and +1 modulo `tabcount` so
that it stays in `[0, tabcount)`, and `RIGHT` after `LEFT` as well as `LEFT` after `RIGHT`
restores the original tab. -/
theorem tab_change_resets_and_wraps (tabcount : Int) (u : layers_ui)
    (h0 : 0 ≤ u.tabindex) (h1 : u.tabindex < tabcount) :
    ((handle_LEFT tabcount u).leftListIndex = 0 ∧ (handle_LEFT tabcount u).leftListOffset = 0 ∧
        (handle_LEFT tabcount u).selected = -1) ∧
      ((handle_RIGHT tabcount u).leftListIndex = 0 ∧
        (handle_RIGHT tabcount u).leftListOffset = 0 ∧
        (handle_RIGHT tabcount u).selected = -1) ∧
      (handle_LEFT tabcount u).tabindex = (u.tabindex - 1) % tabcount ∧
      (handle_RIGHT tabcount u).tabindex = (u.tabindex + 1) % tabcount ∧
      (0 ≤ (handle_LEFT tabcount u).tabindex ∧ (handle_LEFT tabcount u).tabindex < tabcount) ∧
      (0 ≤ (handle_RIGHT tabcount u).tabindex ∧
        (handle_RIGHT tabcount u).tabindex < tabcount) ∧
      (handle_RIGHT tabcount (handle_LEFT tabcount u)).tabindex = u.tabindex ∧
      (handle_LEFT tabcount (handle_RIGHT tabcount u)).tabindex = u.tabindex := by
  have hL : (handle_LEFT tabcount u).tabindex =
      if u.tabindex - 1 < 0 then tabcount - 1 else u.tabindex - 1 := rfl
  have hR : (handle_RIGHT tabcount u).tabindex = (u.tabindex + 1).tmod tabcount := rfl
  have hRL : (handle_RIGHT tabcount (handle_LEFT tabcount u)).tabindex =
      ((handle_LEFT tabcount u).tabindex + 1).tmod tabcount := rfl
  have hLR : (handle_LEFT tabcount (handle_RIGHT tabcount u)).tabindex =
      if (handle_RIGHT tabcount u).tabindex - 1 < 0 then tabcount - 1
      else (handle_RIGHT tabcount u).tabindex - 1 := rfl
  obtain ⟨r1, r2, r3, r4, r5⟩ := tmod_succ_of_lt u.tabindex tabcount h0 h1
  have hLrange : 0 ≤ (handle_LEFT tabcount u).tabindex ∧
      (handle_LEFT tabcount u).tabindex < tabcount := by
    rw [hL]
    split <;> omega
  obtain ⟨l1, l2, l3, l4, l5⟩ :=
    tmod_succ_of_lt (handle_LEFT tabcount u).tabindex tabcount hLrange.1 hLrange.2
  refine ⟨⟨rfl, rfl, rfl⟩, ⟨rfl, rfl, rfl⟩, ?_, ?_, hLrange, ?_, ?_, ?_⟩
  · rw [hL, emod_pred_of_lt u.tabindex tabcount h0 h1]
  · rw [hR, r1]
  · rw [hR]
    exact ⟨r2, r3⟩
  · rw [hRL]
    by_cases h : u.tabindex - 1 < 0
    · have hl : (handle_LEFT tabcount u).tabindex = tabcount - 1 := by rw [hL, if_pos h]
      rw [l5 (by omega)]
      omega
    · have hl : (handle_LEFT tabcount u).tabindex = u.tabindex - 1 := by rw [hL, if_neg h]
      rw [l4 (by omega)]
      omega
  · rw [hLR, hR]
    by_cases h : u.tabindex + 1 < tabcount
    · rw [r4 h]
      split <;> omega
    · rw [r5 (by omega)]
      split <;> omega

/-- Witness for C11: the third of four tabs. -/
theorem tab_change_resets_and_wraps_witness :
    (handle_LEFT 4 third_tab_grabbed).tabindex = 1 ∧
      (handle_RIGHT 4 third_tab_grabbed).tabindex = 3 ∧
      (handle_LEFT 4 third_tab_grabbed).selected = -1 ∧
      (handle_RIGHT 4 (handle_LEFT 4 third_tab_grabbed)).tabindex =
        third_tab_grabbed.tabindex := by
  have h := tab_change_resets_and_wraps 4 third_tab_grabbed (by decide) (by decide)
  exact ⟨by decide, by decide, h.1.2.2, h.2.2.2.2.2.2.1⟩

/-! ### C12 -/

theorem set_set_perm (l : List item) (a b : Nat) (ha : a < l.length) (hb : b < l.length) :
    ((l.set a l[b]).set b l[a]).Perm l := by
  rw [List.perm_iff_count]
  intro x
  have hb' : b < (l.set a l[b]).length := by simpa using hb
  rw [List.count_set _ _ _ _ hb', List.count_set _ _ _ _ ha, List.getElem_set]
  have h1 := List.boole_getElem_le_countP (fun y => y == x) l a ha
  have h2 := List.boole_getElem_le_countP (fun y => y == x) l b hb
  rw [← List.count_eq_countP] at h1 h2
  by_cases hab : a = b
  · subst hab
    rw [if_pos rfl]
    by_cases hx : (l[a] == x) = true
    · simp only [hx, if_true] at h1 ⊢
      omega
    · simp only [hx, if_false] at h1 ⊢
      omega
  · rw [if_neg hab]
    by_cases hx : (l[a] == x) = true <;> by_cases hy : (l[b] == x) = true
    · simp only [hx, hy, if_true] at h1 h2 ⊢
      omega
    · simp only [hx, hy, if_true, if_false] at h1 h2 ⊢
      omega
    · simp only [hx, hy, if_true, if_false] at h1 h2 ⊢
      omega
    · simp only [hx, hy, if_false] at h1 h2 ⊢
      omega

theorem on_redraw_left_fields (u : layers_ui) :
    (on_redraw_left u).worn = u.worn ∧ (on_redraw_left u).tmp_worn = u.tmp_worn ∧
      (on_redraw_left u).selected = u.selected ∧
      (on_redraw_left u).leftListIndex = u.leftListIndex ∧
      (on_redraw_left u).leftListSize = u.leftListSize ∧
      (on_redraw_left u).tabindex = u.tabindex ∧
      (on_redraw_left u).leftListLines = u.leftListLines := by
  unfold on_redraw_left
  dsimp only
  split_ifs <;> exact ⟨rfl, rfl, rfl, rfl, rfl, rfl, rfl⟩

theorem on_redraw_ui (inp : iteration_input) (s : screen) :
    (on_redraw inp s).ui = on_redraw_left s.ui := by
  unfold on_redraw
  dsimp only
  split_ifs <;> rfl

theorem on_redraw_worn (inp : iteration_input) (s : screen) :
    (on_redraw inp s).ui.worn = s.ui.worn := by
  rw [on_redraw_ui]
  exact (on_redraw_left_fields s.ui).1

theorem dispatch_frame_worn (cfg : screen_config) (inp : iteration_input) (s : screen)
    (h : inp.action ∈ frame_actions) :
    (dispatch cfg inp s).worn = some s.ui.worn := by
  simp only [frame_actions, List.mem_cons, List.mem_singleton, List.not_mem_nil,
    or_false] at h
  rcases h with h | h | h | h | h | h | h
  · simp [dispatch, h, loop_result.worn, handle_LEFT]
  · simp [dispatch, h, loop_result.worn, handle_RIGHT]
  · have : (handle_NEXT_TAB s).ui.worn = s.ui.worn := by
      unfold handle_NEXT_TAB
      split <;> rfl
    simp [dispatch, h, loop_result.worn, this]
  · have : (handle_PREV_TAB s).ui.worn = s.ui.worn := by
      unfold handle_PREV_TAB
      split <;> rfl
    simp [dispatch, h, loop_result.worn, this]
  · have : (handle_MOVE_ARMOR s.ui).worn = s.ui.worn := by
      unfold handle_MOVE_ARMOR
      split <;> rfl
    simp [dispatch, h, loop_result.worn, this]
  · simp [dispatch, h, loop_result.worn]
  · simp [dispatch, h, loop_result.worn]

theorem cursor_up_frame (u : layers_ui) :
    (cursor_up u).worn = u.worn ∧ (cursor_up u).selected = u.selected ∧
      (cursor_up u).tmp_worn = u.tmp_worn ∧ (cursor_up u).leftListSize = u.leftListSize := by
  unfold cursor_up
  dsimp only
  split_ifs <;> exact ⟨rfl, rfl, rfl, rfl⟩

theorem cursor_down_frame (u : layers_ui) :
    (cursor_down u).worn = u.worn ∧ (cursor_down u).selected = u.selected ∧
      (cursor_down u).tmp_worn = u.tmp_worn ∧
      (cursor_down u).leftListSize = u.leftListSize := by
  unfold cursor_down
  dsimp only
  split_ifs <;> exact ⟨rfl, rfl, rfl, rfl⟩

theorem shift_selected_item_worn (u u' : layers_ui) (h : shift_selected_item u = some u') :
    (u.selected < 0 ∧ u' = u) ∨
      (0 ≤ u.selected ∧ ∃ (a b : Nat) (wa wb : item), shift_positions u = some (a, b) ∧
        u.worn[a]? = some wa ∧ u.worn[b]? = some wb ∧
        u'.worn = (u.worn.set a wb).set b wa) := by
  unfold shift_selected_item at h
  by_cases hsel : u.selected ≥ 0
  · right
    rw [if_pos hsel] at h
    refine ⟨hsel, ?_⟩
    cases hp : shift_positions u with
    | none => simp [hp] at h
    | some ab =>
      obtain ⟨a, b⟩ := ab
      rw [hp] at h
      dsimp only at h
      cases ha : u.worn[a]? with
      | none => simp [ha] at h
      | some wa =>
        cases hb : u.worn[b]? with
        | none => simp [ha, hb] at h
        | some wb =>
          simp only [ha, hb, Option.some.injEq] at h
          exact ⟨a, b, wa, wb, rfl, ha, hb, by rw [← h]⟩
  · left
    rw [if_neg hsel] at h
    exact ⟨by omega, (Option.some.inj h).symm⟩

theorem swapped_perm (l : List item) (a b : Nat) (wa wb : item)
    (ha : l[a]? = some wa) (hb : l[b]? = some wb) :
    ((l.set a wb).set b wa).Perm l := by
  obtain ⟨hla, rfl⟩ := List.getElem?_eq_some_iff.mp ha
  obtain ⟨hlb, rfl⟩ := List.getElem?_eq_some_iff.mp hb
  exact set_set_perm l a b hla hlb

/-- The loop head either returns without touching the left-list state or hands over to
the loop body. -/
theorem loop_iteration_head (cfg : screen_config) (inp : iteration_input) (s : screen) :
    loop_iteration cfg inp s = loop_body cfg inp s ∨
      ∃ r s', loop_iteration cfg inp s = .returned r s' ∧ s'.ui = s.ui ∧
        ((r = return_reason.moves_exhausted ∧ cfg.who.is_avatar = true ∧ inp.you_moves < 0) ∨
          (r = return_reason.too_far ∧ cfg.who.is_avatar = false ∧ inp.rl_dist > 1) ∨
          (r = return_reason.not_friendly ∧ cfg.who.is_avatar = false ∧
            inp.you_friendly = false)) := by
  unfold loop_iteration
  by_cases hav : cfg.who.is_avatar = true
  · rw [if_pos hav]
    by_cases hm : inp.you_moves < 0
    · rw [if_pos hm]
      exact Or.inr ⟨_, _, rfl, rfl, Or.inl ⟨rfl, hav, hm⟩⟩
    · rw [if_neg hm]
      exact Or.inl rfl
  · rw [if_neg hav]
    have hav' : cfg.who.is_avatar = false := by simpa using hav
    by_cases hd : inp.rl_dist > 1
    · rw [if_pos hd]
      exact Or.inr ⟨_, _, rfl, rfl, Or.inr (Or.inl ⟨rfl, hav', hd⟩)⟩
    · rw [if_neg hd]
      cases hf : inp.you_friendly
      · exact Or.inr ⟨_, _, by simp, rfl, Or.inr (Or.inr ⟨rfl, hav', rfl⟩)⟩
      · exact Or.inl (by simp)

/-- The loop body with the tab's part resolved. -/
theorem loop_body_eq (cfg : screen_config) (inp : iteration_input) (s : screen)
    (bp : bodypart_id) (hbp : current_bp cfg s.ui.tabindex = some bp) :
    loop_body cfg inp s =
      if cfg.who.is_npc = true ∧ inp.action = "ASSIGN_INVLETS" then
        .next (on_redraw inp { s with ui := rebuild_tmp_worn s.ui bp })
      else dispatch cfg inp (on_redraw inp { s with ui := rebuild_tmp_worn s.ui bp }) := by
  unfold loop_body
  rw [hbp]

theorem loop_body_undefined (cfg : screen_config) (inp : iteration_input) (s : screen)
    (hbp : current_bp cfg s.ui.tabindex = none) : loop_body cfg inp s = .undefined := by
  unfold loop_body
  rw [hbp]

theorem dispatch_up_down_worn (cfg : screen_config) (inp : iteration_input) (s : screen)
    (h : inp.action = "UP" ∨ inp.action = "DOWN") (w : List item)
    (hw : (dispatch cfg inp s).worn = some w) :
    (s.ui.selected < 0 → w = s.ui.worn) ∧
      w.Perm s.ui.worn ∧ (w = s.ui.worn ∨ exchanged s.ui.worn w) := by
  have key : ∀ u : layers_ui, u.worn = s.ui.worn → u.selected = s.ui.selected →
      (lift_ui s (shift_selected_item u)).worn = some w →
      (s.ui.selected < 0 → w = s.ui.worn) ∧
        w.Perm s.ui.worn ∧ (w = s.ui.worn ∨ exchanged s.ui.worn w) := by
    intro u huw hus hl
    cases hsh : shift_selected_item u with
    | none => simp [hsh, lift_ui, loop_result.worn] at hl
    | some u' =>
      simp only [hsh, lift_ui, loop_result.worn, Option.some.injEq] at hl
      rcases shift_selected_item_worn u u' hsh with ⟨_, rfl⟩ | ⟨hpos, a, b, wa, wb, _, ha, hb, hu'⟩
      · rw [huw] at hl
        exact ⟨fun _ => hl.symm, hl ▸ List.Perm.refl _, Or.inl hl.symm⟩
      · rw [huw] at ha hb hu'
        rw [hu'] at hl
        subst hl
        refine ⟨fun hneg => ?_, swapped_perm _ a b wa wb ha hb,
          Or.inr ⟨a, b, wa, wb, ha, hb, rfl⟩⟩
        rw [hus] at hpos
        omega
  have same : (loop_result.next s).worn = some w →
      (s.ui.selected < 0 → w = s.ui.worn) ∧
        w.Perm s.ui.worn ∧ (w = s.ui.worn ∨ exchanged s.ui.worn w) := by
    intro hl
    simp only [loop_result.worn, Option.some.injEq] at hl
    exact ⟨fun _ => hl.symm, hl ▸ List.Perm.refl _, Or.inl hl.symm⟩
  rcases h with h | h
  · by_cases hsz : s.ui.leftListSize > 0
    · have hd : dispatch cfg inp s = lift_ui s (shift_selected_item (cursor_up s.ui)) := by
        simp [dispatch, h, hsz]
      rw [hd] at hw
      exact key _ (cursor_up_frame s.ui).1 (cursor_up_frame s.ui).2.1 hw
    · have hd : dispatch cfg inp s = .next s := by
        simp [dispatch, h, hsz]
      rw [hd] at hw
      exact same hw
  · by_cases hsz : s.ui.leftListSize > 0
    · have hd : dispatch cfg inp s = lift_ui s (shift_selected_item (cursor_down s.ui)) := by
        simp [dispatch, h, hsz]
      rw [hd] at hw
      exact key _ (cursor_down_frame s.ui).1 (cursor_down_frame s.ui).2.1 hw
    · have hd : dispatch cfg inp s = .next s := by
        simp [dispatch, h, hsz]
      rw [hd] at hw
      exact same hw

theorem cursor_up_index_range (u : layers_ui) (h0 : 0 ≤ u.leftListIndex)
    (h1 : u.leftListIndex < u.leftListSize) :
    0 ≤ (cursor_up u).leftListIndex ∧ (cursor_up u).leftListIndex < u.leftListSize := by
  unfold cursor_up
  dsimp only
  split_ifs <;> dsimp only <;> omega

theorem cursor_down_index_range (u : layers_ui) (h0 : 0 ≤ u.leftListIndex)
    (h1 : u.leftListIndex < u.leftListSize) :
    0 ≤ (cursor_down u).leftListIndex ∧ (cursor_down u).leftListIndex < u.leftListSize := by
  unfold cursor_down
  dsimp only
  split_ifs <;> dsimp only <;> omega

/-- With the grabbed row and the moved cursor inside `tmp_worn`, whose entries are positions
of `who.worn`, `shift_selected_item` has a defined result. -/
theorem shift_selected_item_defined (u : layers_ui)
    (hsz : u.leftListSize = (u.tmp_worn.length : Int))
    (hbound : ∀ x ∈ u.tmp_worn, x < u.worn.length)
    (hsel0 : 0 ≤ u.selected) (hsel1 : u.selected < u.leftListSize)
    (hidx0 : 0 ≤ u.leftListIndex) (hidx1 : u.leftListIndex < u.leftListSize) :
    ∃ u', shift_selected_item u = some u' := by
  have h1 : u.selected.toNat < u.tmp_worn.length := by omega
  have h2 : u.leftListIndex.toNat < u.tmp_worn.length := by omega
  obtain ⟨_, _, _, u', _, _, hu', _⟩ :=
    shift_selected_item_rows u u.tmp_worn[u.selected.toNat] u.tmp_worn[u.leftListIndex.toNat]
      hsel0 hidx0 (List.getElem?_eq_getElem h1) (List.getElem?_eq_getElem h2) hbound
  exact ⟨u', hu'⟩

theorem dispatch_up_down_defined (cfg : screen_config) (inp : iteration_input) (s : screen)
    (bp : bodypart_id) (h : inp.action = "UP" ∨ inp.action = "DOWN")
    (hsel0 : 0 ≤ s.ui.selected)
    (hsel1 : s.ui.selected < (rebuild_tmp_worn s.ui bp).leftListSize)
    (hidx0 : 0 ≤ s.ui.leftListIndex) :
    (dispatch cfg inp (on_redraw inp { s with ui := rebuild_tmp_worn s.ui bp })).worn ≠
      none := by
  have hne : 0 < (rebuild_tmp_worn s.ui bp).leftListSize := by omega
  have hlt := rebuild_tmp_worn_index_lt s.ui bp hne
  have hbound := rebuild_tmp_worn_bound s.ui bp
  have hsize := rebuild_tmp_worn_size s.ui bp
  have hsel : (rebuild_tmp_worn s.ui bp).selected = s.ui.selected := rfl
  have hidx : 0 ≤ (rebuild_tmp_worn s.ui bp).leftListIndex := by
    unfold rebuild_tmp_worn
    dsimp only
    omega
  generalize rebuild_tmp_worn s.ui bp = r at *
  obtain ⟨f1, f2, f3, f4, f5, _, _⟩ := on_redraw_left_fields r
  have hui := on_redraw_ui inp { s with ui := r }
  generalize on_redraw inp { s with ui := r } = s1 at *
  dsimp only at hui
  have hs1 : s1.ui.leftListSize > 0 := by rw [hui, f5]; exact hne
  have mk : ∀ u : layers_ui, u.worn = r.worn → u.tmp_worn = r.tmp_worn →
      u.selected = r.selected → u.leftListSize = r.leftListSize →
      0 ≤ u.leftListIndex → u.leftListIndex < r.leftListSize →
      (lift_ui s1 (shift_selected_item u)).worn ≠ none := by
    intro u hw ht hs hz hi0 hi1
    obtain ⟨u', hu'⟩ := shift_selected_item_defined u (by rw [hz, ht]; exact hsize)
      (by rw [ht, hw]; exact hbound) (by rw [hs, hsel]; exact hsel0)
      (by rw [hs, hz, hsel]; exact hsel1) hi0 (by rw [hz]; exact hi1)
    rw [hu']
    simp [lift_ui, loop_result.worn]
  have hi0 : 0 ≤ s1.ui.leftListIndex := by rw [hui, f4]; exact hidx
  have hi1 : s1.ui.leftListIndex < s1.ui.leftListSize := by rw [hui, f4, f5]; exact hlt
  rcases h with h | h
  · have hd : dispatch cfg inp s1 = lift_ui s1 (shift_selected_item (cursor_up s1.ui)) := by
      simp [dispatch, h, hs1]
    rw [hd]
    obtain ⟨c1, c2, c3, c4⟩ := cursor_up_frame s1.ui
    obtain ⟨r0, r1⟩ := cursor_up_index_range s1.ui hi0 hi1
    exact mk _ (by rw [c1, hui, f1]) (by rw [c3, hui, f2]) (by rw [c2, hui, f3])
      (by rw [c4, hui, f5]) r0 (lt_of_lt_of_eq r1 (by rw [hui, f5]))
  · have hd : dispatch cfg inp s1 =
        lift_ui s1 (shift_selected_item (cursor_down s1.ui)) := by
      simp [dispatch, h, hs1]
    rw [hd]
    obtain ⟨c1, c2, c3, c4⟩ := cursor_down_frame s1.ui
    obtain ⟨r0, r1⟩ := cursor_down_index_range s1.ui hi0 hi1
    exact mk _ (by rw [c1, hui, f1]) (by rw [c3, hui, f2]) (by rw [c2, hui, f3])
      (by rw [c4, hui, f5]) r0 (lt_of_lt_of_eq r1 (by rw [hui, f5]))

/-- C12: handling `LEFT`, `RIGHT`, `NEXT_TAB`, `PREV_TAB`, `MOVE_ARMOR`, `USAGE_HELP`,
`QUIT`, or `UP` / `DOWN` while nothing is grabbed (`selected < 0`), leaves the worn sequence
exactly as it was (the iteration has no defined outcome only when `tabindex` is outside
`armor_cat`); a grabbed `UP` / `DOWN` leaves it as it was or exchanges two of its entries,
so the result is a permutation of the input, and with the grabbed row inside the list the
iteration has a defined outcome. -/
theorem wear_order_frame (cfg : screen_config) (inp : iteration_input) (s : screen) :
    ((inp.action ∈ frame_actions ∨
        ((inp.action = "UP" ∨ inp.action = "DOWN") ∧ s.ui.selected < 0)) →
      (loop_iteration cfg inp s).worn = some s.ui.worn ∨
        (loop_iteration cfg inp s = .undefined ∧ current_bp cfg s.ui.tabindex = none)) ∧
    ((inp.action = "UP" ∨ inp.action = "DOWN") → 0 ≤ s.ui.selected →
      ∀ w, (loop_iteration cfg inp s).worn = some w →
        w.Perm s.ui.worn ∧ (w = s.ui.worn ∨ exchanged s.ui.worn w)) ∧
    ((inp.action = "UP" ∨ inp.action = "DOWN") → 0 ≤ s.ui.selected →
      ∀ bp, current_bp cfg s.ui.tabindex = some bp →
        s.ui.selected < (rebuild_tmp_worn s.ui bp).leftListSize → 0 ≤ s.ui.leftListIndex →
        (loop_iteration cfg inp s).worn ≠ none) := by
  have hnot : (inp.action ∈ frame_actions ∨ inp.action = "UP" ∨ inp.action = "DOWN") →
      ¬(cfg.who.is_npc = true ∧ inp.action = "ASSIGN_INVLETS") := by
    intro h hn
    rw [hn.2] at h
    simp [frame_actions] at h
  refine ⟨?_, ?_, ?_⟩
  · intro h
    rcases loop_iteration_head cfg inp s with hb | ⟨r, s', hr, hs', _⟩
    · rw [hb]
      cases hbp : current_bp cfg s.ui.tabindex with
      | none => exact Or.inr ⟨loop_body_undefined cfg inp s hbp, rfl⟩
      | some bp =>
        left
        rw [loop_body_eq cfg inp s bp hbp]
        rcases h with h | ⟨h, hneg⟩
        · rw [if_neg (hnot (Or.inl h)), dispatch_frame_worn cfg inp _ h, on_redraw_worn]
          rfl
        · rw [if_neg (hnot (Or.inr h))]
          have hw0 : (on_redraw inp { s with ui := rebuild_tmp_worn s.ui bp }).ui.worn =
              s.ui.worn := by rw [on_redraw_worn]; rfl
          have hs0 : (on_redraw inp { s with ui := rebuild_tmp_worn s.ui bp }).ui.selected =
              s.ui.selected := by
            rw [on_redraw_ui]
            exact (on_redraw_left_fields _).2.2.1
          cases hd : (dispatch cfg inp
              (on_redraw inp { s with ui := rebuild_tmp_worn s.ui bp })).worn with
          | some w =>
            have := (dispatch_up_down_worn cfg inp _ h w hd).1 (by rw [hs0]; exact hneg)
            rw [this, hw0]
          | none =>
            exfalso
            have hsz : ¬(on_redraw inp
                { s with ui := rebuild_tmp_worn s.ui bp }).ui.selected ≥ 0 := by
              rw [hs0]
              omega
            have hshift : ∀ u : layers_ui,
                u.selected = (on_redraw inp
                  { s with ui := rebuild_tmp_worn s.ui bp }).ui.selected →
                shift_selected_item u = some u := by
              intro u hu
              unfold shift_selected_item
              rw [if_neg (by rw [hu]; exact hsz)]
            revert hd
            rcases h with h | h
            · by_cases hq : (on_redraw inp
                  { s with ui := rebuild_tmp_worn s.ui bp }).ui.leftListSize > 0
              · simp [dispatch, h, hq, hshift _ (cursor_up_frame _).2.1, lift_ui,
                  loop_result.worn]
              · simp [dispatch, h, hq, loop_result.worn]
            · by_cases hq : (on_redraw inp
                  { s with ui := rebuild_tmp_worn s.ui bp }).ui.leftListSize > 0
              · simp [dispatch, h, hq, hshift _ (cursor_down_frame _).2.1, lift_ui,
                  loop_result.worn]
              · simp [dispatch, h, hq, loop_result.worn]
    · left
      rw [hr]
      simp [loop_result.worn, hs']
  · intro h _ w hw
    rcases loop_iteration_head cfg inp s with hb | ⟨r, s', hr, hs', _⟩
    · rw [hb] at hw
      cases hbp : current_bp cfg s.ui.tabindex with
      | none =>
        rw [loop_body_undefined cfg inp s hbp] at hw
        simp [loop_result.worn] at hw
      | some bp =>
        rw [loop_body_eq cfg inp s bp hbp, if_neg (hnot (Or.inr h))] at hw
        have := (dispatch_up_down_worn cfg inp _ h w hw).2
        rw [on_redraw_worn] at this
        exact this
    · rw [hr] at hw
      simp only [loop_result.worn, hs', Option.some.injEq] at hw
      exact ⟨hw ▸ List.Perm.refl _, Or.inl hw.symm⟩
  · intro h hsel0 bp hbp hsel1 hidx0
    rcases loop_iteration_head cfg inp s with hb | ⟨r, s', hr, _, _⟩
    · rw [hb, loop_body_eq cfg inp s bp hbp, if_neg (hnot (Or.inr h))]
      exact dispatch_up_down_defined cfg inp s bp h hsel0 hsel1 hidx0
    · rw [hr]
      simp [loop_result.worn]

/-! ### C13 -/

/-- For the avatar the branch itself shows nothing: the wear attempt fails and the
`EQUIP_ARMOR` branch leaves the list of events of the screen as it was. -/
theorem failed_equip_avatar_branch_is_silent :
    (failed_equip_input "EQUIP_ARMOR").wear_choice = some coat ∧
      (failed_equip_input "EQUIP_ARMOR").wear_possessed = none ∧
      dispatch (config_of wearer_kind.avatar) (failed_equip_input "EQUIP_ARMOR")
        screen_of_three = .next screen_of_three ∧
      screen_of_three.events = [] := by
  decide

/-- What the branches at lines 881-927 do themselves when the attempt fails
(`wear_possessed` returns false; for `EQUIP_ARMOR_HERE` the cursor row of a non-empty list
is inside `tmp_worn`): the branch shows the popup "Can't put this on!" exactly when the wearer is an
NPC and shows nothing when the wearer is the avatar, and the screen state (`tabindex`,
`leftListIndex`, `selected`, the wear order and every other local) is left unchanged. -/
theorem failed_equip_is_noop (cfg : screen_config) (inp : iteration_input) (s : screen)
    (loc : item) (hloc : inp.wear_choice = some loc) (hfail : inp.wear_possessed = none)
    (hact : inp.action = "EQUIP_ARMOR" ∨
      (inp.action = "EQUIP_ARMOR_HERE" ∧
        (s.ui.leftListSize > 0 → access_tmp_worn s.ui s.ui.leftListIndex ≠ none))) :
    ∃ s', dispatch cfg inp s = .next s' ∧
      s'.ui = s.ui ∧ s'.rightListOffset = s.rightListOffset ∧
      s'.rightListSize = s.rightListSize ∧ s'.rightListLines = s.rightListLines ∧
      s'.events = s.events ++
        (if cfg.who = wearer_kind.npc then [ui_event.popup "Can't put this on!"] else []) := by
  have hnpc : cfg.who.is_npc = true ↔ cfg.who = wearer_kind.npc := by
    cases cfg.who <;> simp [wearer_kind.is_npc]
  rcases hact with h | ⟨h, hacc⟩
  · have hd : dispatch cfg inp s = handle_EQUIP_ARMOR cfg inp s := by
      simp [dispatch, h]
    rw [hd]
    unfold handle_EQUIP_ARMOR
    rw [hloc, hfail]
    dsimp only
    by_cases hn : cfg.who = wearer_kind.npc
    · rw [if_pos (hnpc.mpr hn), if_pos hn]
      exact ⟨_, rfl, rfl, rfl, rfl, rfl, rfl⟩
    · rw [if_neg (fun h => hn (hnpc.mp h)), if_neg hn]
      exact ⟨_, rfl, rfl, rfl, rfl, rfl, by simp⟩
  · have hd : dispatch cfg inp s = handle_EQUIP_ARMOR_HERE cfg inp s := by
      simp [dispatch, h]
    rw [hd]
    unfold handle_EQUIP_ARMOR_HERE
    rw [hloc, hfail]
    dsimp only
    rw [if_neg (fun hh => hacc hh.1 hh.2)]
    by_cases hn : cfg.who = wearer_kind.npc
    · rw [if_pos (hnpc.mpr hn), if_pos hn]
      exact ⟨_, rfl, rfl, rfl, rfl, rfl, rfl⟩
    · rw [if_neg (fun h => hn (hnpc.mp h)), if_neg hn]
      exact ⟨_, rfl, rfl, rfl, rfl, rfl, by simp⟩

/-- An NPC whose wear attempt fails gets the popup of the branch and the screen state stays
as it was. -/
theorem failed_equip_is_noop_witness :
    ∃ s', dispatch (config_of wearer_kind.npc) (failed_equip_input "EQUIP_ARMOR")
        screen_of_three = .next s' ∧
      s'.ui = screen_of_three.ui ∧
      s'.events = [ui_event.popup "Can't put this on!"] := by
  obtain ⟨s', h1, h2, _, _, _, h3⟩ :=
    failed_equip_is_noop (config_of wearer_kind.npc) (failed_equip_input "EQUIP_ARMOR")
      screen_of_three coat rfl rfl (Or.inl rfl)
  exact ⟨s', h1, h2, h3⟩

/-- C13: when an `EQUIP_ARMOR` or `EQUIP_ARMOR_HERE` attempt fails (`wear_possessed` returns
false; for `EQUIP_ARMOR_HERE` the cursor row of a non-empty list is inside `tmp_worn`), the
player gets exactly one notice whatever the kind of wearer, the popup "Can't put this on!"
of the branch for an NPC and the report of `wear_possessed` for the avatar, and the screen
state (`tabindex`, `leftListIndex`, `selected`, the wear order and every other local of the
lists) is left unchanged. -/
theorem failed_equip_notice_and_noop (cfg : screen_config) (inp : iteration_input)
    (s : screen) (loc : item) (hloc : inp.wear_choice = some loc)
    (hfail : inp.wear_possessed = none)
    (hact : inp.action = "EQUIP_ARMOR" ∨
      (inp.action = "EQUIP_ARMOR_HERE" ∧
        (s.ui.leftListSize > 0 → access_tmp_worn s.ui s.ui.leftListIndex ≠ none))) :
    (∃ s', dispatch cfg inp s = .next s' ∧
      s'.ui = s.ui ∧ s'.ui.tabindex = s.ui.tabindex ∧
      s'.ui.leftListIndex = s.ui.leftListIndex ∧ s'.ui.selected = s.ui.selected ∧
      s'.ui.worn = s.ui.worn ∧ s'.rightListOffset = s.rightListOffset ∧
      s'.rightListSize = s.rightListSize ∧ s'.rightListLines = s.rightListLines) ∧
    equip_attempt_notices cfg inp s =
      some [if cfg.who = wearer_kind.npc then ui_event.popup "Can't put this on!"
            else ui_event.message "cannot wear"] := by
  obtain ⟨s', hd, hui, h1, h2, h3, hev⟩ := failed_equip_is_noop cfg inp s loc hloc hfail hact
  refine ⟨⟨s', hd, hui, by rw [hui], by rw [hui], by rw [hui], by rw [hui], h1, h2, h3⟩, ?_⟩
  unfold equip_attempt_notices
  rw [hd]
  dsimp only
  rw [hev, hfail, List.drop_left]
  cases cfg.who <;> simp [wear_possessed_report, wearer_kind.is_avatar]

/-- Witness for C13: the avatar and an NPC whose wear attempt fails; the avatar gets the
report of `wear_possessed`, the NPC the popup, and the wear order stays `[shirt, coat, vest]`
in both cases. -/
theorem failed_equip_notice_and_noop_witness :
    ((∃ s', dispatch (config_of wearer_kind.avatar) (failed_equip_input "EQUIP_ARMOR")
        screen_of_three = .next s' ∧ s'.ui.worn = [shirt, coat, vest]) ∧
      equip_attempt_notices (config_of wearer_kind.avatar) (failed_equip_input "EQUIP_ARMOR")
        screen_of_three = some [ui_event.message "cannot wear"]) ∧
    ((∃ s', dispatch (config_of wearer_kind.npc) (failed_equip_input "EQUIP_ARMOR_HERE")
        screen_of_three = .next s' ∧ s'.ui.worn = [shirt, coat, vest]) ∧
      equip_attempt_notices (config_of wearer_kind.npc)
        (failed_equip_input "EQUIP_ARMOR_HERE") screen_of_three =
        some [ui_event.popup "Can't put this on!"]) := by
  obtain ⟨⟨s1, hd1, _, _, _, _, hw1, _⟩, hn1⟩ :=
    failed_equip_notice_and_noop (config_of wearer_kind.avatar)
      (failed_equip_input "EQUIP_ARMOR") screen_of_three coat rfl rfl (Or.inl rfl)
  obtain ⟨⟨s2, hd2, _, _, _, _, hw2, _⟩, hn2⟩ :=
    failed_equip_notice_and_noop (config_of wearer_kind.npc)
      (failed_equip_input "EQUIP_ARMOR_HERE") screen_of_three coat rfl rfl
      (Or.inr ⟨rfl, by decide⟩)
  exact ⟨⟨⟨s1, hd1, hw1⟩, hn1⟩, ⟨⟨s2, hd2, hw2⟩, hn2⟩⟩

/-! ### C14 -/

/-- C14, as stated, fails: with the avatar out of moves the loop head returns (after
`do_return_entry()`) whatever the action is, here `UP`, with neither `QUIT` nor a removal
involved; an NPC standing two tiles away makes the loop head return as well. -/
theorem loop_returns_at_head_counterexample :
    loop_iteration (config_of wearer_kind.avatar) (out_of_moves_input "UP") screen_of_three =
        .returned return_reason.moves_exhausted
          { screen_of_three with events := [ui_event.do_return_entry] } ∧
      (out_of_moves_input "UP").action ≠ "QUIT" ∧
      (out_of_moves_input "UP").action ≠ "REMOVE_ARMOR" ∧
      loop_iteration (config_of wearer_kind.npc)
          { idle_input "UP" with rl_dist := 2 } screen_of_three =
        .returned return_reason.too_far screen_of_three := by
  decide

theorem lift_ui_not_returned (s : screen) (o : Option layers_ui) (r : return_reason)
    (s' : screen) : lift_ui s o ≠ .returned r s' := by
  intro h
  cases o <;> cases h

theorem ite_eq_cases {α : Type} (c : Prop) [Decidable c] (a b x : α)
    (h : (if c then a else b) = x) : (c ∧ a = x) ∨ (¬c ∧ b = x) := by
  by_cases hc : c
  · rw [if_pos hc] at h
    exact Or.inl ⟨hc, h⟩
  · rw [if_neg hc] at h
    exact Or.inr ⟨hc, h⟩

theorem handle_CHANGE_SIDE_not_returned (inp : iteration_input) (s : screen)
    (r : return_reason) (s' : screen) : handle_CHANGE_SIDE inp s ≠ .returned r s' := by
  intro h
  unfold handle_CHANGE_SIDE at h
  split at h
  · split at h
    · cases h
    · split at h
      · split at h <;> cases h
      · cases h
  · cases h

theorem handle_TOGGLE_CLOTH_not_returned (s : screen)
    (r : return_reason) (s' : screen) : handle_TOGGLE_CLOTH s ≠ .returned r s' := by
  intro h
  unfold handle_TOGGLE_CLOTH at h
  split at h <;> cases h

theorem handle_EQUIP_ARMOR_not_returned (cfg : screen_config) (inp : iteration_input)
    (s : screen) (r : return_reason) (s' : screen) :
    handle_EQUIP_ARMOR cfg inp s ≠ .returned r s' := by
  intro h
  unfold handle_EQUIP_ARMOR at h
  split at h
  · cases h
  · split at h
    · split at h
      · cases h
      · split at h <;> cases h
    · split at h <;> cases h

theorem handle_EQUIP_ARMOR_HERE_not_returned (cfg : screen_config) (inp : iteration_input)
    (s : screen) (r : return_reason) (s' : screen) :
    handle_EQUIP_ARMOR_HERE cfg inp s ≠ .returned r s' := by
  intro h
  unfold handle_EQUIP_ARMOR_HERE at h
  split at h
  · cases h
  · split at h
    · cases h
    · split at h
      · cases h
      · split at h <;> cases h

theorem handle_REMOVE_ARMOR_returned (inp : iteration_input) (s : screen)
    (r : return_reason) (s' : screen) (h : handle_REMOVE_ARMOR inp s = .returned r s') :
    r = return_reason.removal_activity ∧ inp.query_yn = true ∧
      inp.takeoff_started_activity = true ∧ s.ui.leftListIndex < s.ui.leftListSize := by
  unfold handle_REMOVE_ARMOR at h
  split at h
  · rename_i g1
    split at h
    · rename_i g2
      split at h
      · cases h
      · split at h
        · rename_i g3
          cases h
          exact ⟨rfl, g2, g3, g1⟩
        · cases h
    · cases h
  · cases h

theorem dispatch_returned (cfg : screen_config) (inp : iteration_input) (s : screen)
    (r : return_reason) (s' : screen) (h : dispatch cfg inp s = .returned r s') :
    (r = return_reason.quit ∧ inp.action = "QUIT" ∧ s' = s) ∨
      (r = return_reason.removal_activity ∧ inp.action = "REMOVE_ARMOR" ∧
        inp.query_yn = true ∧ inp.takeoff_started_activity = true ∧
        s.ui.leftListIndex < s.ui.leftListSize) := by
  unfold dispatch at h
  rcases ite_eq_cases _ _ _ _ h with ⟨_, h⟩ | ⟨_, h⟩
  · exact absurd h (lift_ui_not_returned _ _ _ _)
  rcases ite_eq_cases _ _ _ _ h with ⟨_, h⟩ | ⟨_, h⟩
  · exact absurd h (lift_ui_not_returned _ _ _ _)
  rcases ite_eq_cases _ _ _ _ h with ⟨_, h⟩ | ⟨_, h⟩
  · cases h
  rcases ite_eq_cases _ _ _ _ h with ⟨_, h⟩ | ⟨_, h⟩
  · cases h
  rcases ite_eq_cases _ _ _ _ h with ⟨_, h⟩ | ⟨_, h⟩
  · cases h
  rcases ite_eq_cases _ _ _ _ h with ⟨_, h⟩ | ⟨_, h⟩
  · cases h
  rcases ite_eq_cases _ _ _ _ h with ⟨_, h⟩ | ⟨_, h⟩
  · cases h
  rcases ite_eq_cases _ _ _ _ h with ⟨_, h⟩ | ⟨_, h⟩
  · exact absurd h (handle_CHANGE_SIDE_not_returned _ _ _ _)
  rcases ite_eq_cases _ _ _ _ h with ⟨_, h⟩ | ⟨_, h⟩
  · exact absurd h (handle_TOGGLE_CLOTH_not_returned _ _ _)
  rcases ite_eq_cases _ _ _ _ h with ⟨_, h⟩ | ⟨_, h⟩
  · cases h
  rcases ite_eq_cases _ _ _ _ h with ⟨_, h⟩ | ⟨_, h⟩
  · exact absurd h (handle_EQUIP_ARMOR_not_returned _ _ _ _ _)
  rcases ite_eq_cases _ _ _ _ h with ⟨_, h⟩ | ⟨_, h⟩
  · exact absurd h (handle_EQUIP_ARMOR_HERE_not_returned _ _ _ _ _)
  rcases ite_eq_cases _ _ _ _ h with ⟨hact, h⟩ | ⟨_, h⟩
  · obtain ⟨g0, g1, g2, g3⟩ := handle_REMOVE_ARMOR_returned inp s r s' h
    exact Or.inr ⟨g0, hact, g1, g2, g3⟩
  rcases ite_eq_cases _ _ _ _ h with ⟨_, h⟩ | ⟨_, h⟩
  · cases h
  rcases ite_eq_cases _ _ _ _ h with ⟨_, h⟩ | ⟨_, h⟩
  · cases h
  rcases ite_eq_cases _ _ _ _ h with ⟨hact, h⟩ | ⟨_, h⟩
  · cases h
    exact Or.inl ⟨rfl, hact, rfl⟩
  · cases h

/-- C14 amended: `show_armor_layers_ui` returns only in these ways: through the `QUIT`
action; from `REMOVE_ARMOR` when the confirmed take-off started an activity; and at the
loop head, when the wearer is the avatar and `you.moves < 0`, or when the wearer is not the
avatar and is more than one tile away or the friendliness test fails.  Each of the three
loop-head conditions does make the function return, and so does `QUIT` once the loop head
is passed. -/
theorem loop_returns_only_by (cfg : screen_config) (inp : iteration_input) (s : screen) :
    (∀ r s', loop_iteration cfg inp s = .returned r s' →
      (r = return_reason.quit ∧ inp.action = "QUIT") ∨
        (r = return_reason.removal_activity ∧ inp.action = "REMOVE_ARMOR" ∧
          inp.query_yn = true ∧ inp.takeoff_started_activity = true) ∨
        (r = return_reason.moves_exhausted ∧ cfg.who.is_avatar = true ∧ inp.you_moves < 0) ∨
        (r = return_reason.too_far ∧ cfg.who.is_avatar = false ∧ inp.rl_dist > 1) ∨
        (r = return_reason.not_friendly ∧ cfg.who.is_avatar = false ∧
          inp.you_friendly = false)) ∧
    (cfg.who.is_avatar = true → inp.you_moves < 0 →
      ∃ s', loop_iteration cfg inp s = .returned return_reason.moves_exhausted s') ∧
    (cfg.who.is_avatar = false → inp.rl_dist > 1 →
      loop_iteration cfg inp s = .returned return_reason.too_far s) ∧
    (cfg.who.is_avatar = false → ¬inp.rl_dist > 1 → inp.you_friendly = false →
      loop_iteration cfg inp s = .returned return_reason.not_friendly s) ∧
    (inp.action = "QUIT" → loop_iteration cfg inp s = loop_body cfg inp s →
      ∀ bp, current_bp cfg s.ui.tabindex = some bp →
        ∃ s', loop_iteration cfg inp s = .returned return_reason.quit s') := by
  refine ⟨?_, ?_, ?_, ?_, ?_⟩
  · intro r s' h
    rcases loop_iteration_head cfg inp s with hb | ⟨r0, s0, hr, _, hc⟩
    · rw [hb] at h
      cases hbp : current_bp cfg s.ui.tabindex with
      | none =>
        rw [loop_body_undefined cfg inp s hbp] at h
        cases h
      | some bp =>
        rw [loop_body_eq cfg inp s bp hbp] at h
        by_cases hc : cfg.who.is_npc = true ∧ inp.action = "ASSIGN_INVLETS"
        · rw [if_pos hc] at h
          cases h
        · rw [if_neg hc] at h
          rcases dispatch_returned cfg inp _ r s' h with ⟨h1, h2, _⟩ | ⟨h1, h2, h3, h4, _⟩
          · exact Or.inl ⟨h1, h2⟩
          · exact Or.inr (Or.inl ⟨h1, h2, h3, h4⟩)
    · rw [hr] at h
      cases h
      exact Or.inr (Or.inr hc)
  · intro hav hm
    unfold loop_iteration
    rw [if_pos hav, if_pos hm]
    exact ⟨_, rfl⟩
  · intro hav hd
    unfold loop_iteration
    rw [if_neg (by simp [hav]), if_pos hd]
  · intro hav hd hf
    unfold loop_iteration
    rw [if_neg (by simp [hav]), if_neg hd]
    simp [hf]
  · intro hq hb bp hbp
    rw [hb, loop_body_eq cfg inp s bp hbp]
    rw [if_neg (by rw [hq]; simp)]
    have hd : ∀ t : screen, dispatch cfg inp t = .returned return_reason.quit t := by
      intro t
      simp [dispatch, hq]
    exact ⟨_, hd _⟩

/-! ### What `get_item_penalties` reads of the items -/

theorem countP_congr_forall₂ (R : item → item → Prop) (p1 p2 : item → Bool)
    (hR : ∀ a b, R a b → p1 a = p2 b) (l1 l2 : List item) (h : List.Forall₂ R l1 l2) :
    l1.countP p1 = l2.countP p2 := by
  induction h with
  | nil => rfl
  | cons hab _ ih => rw [List.countP_cons, List.countP_cons, ih, hR _ _ hab]

theorem scan_congr_forall₂ (R : item → item → Prop) (layer1 layer2 : layer_level)
    (bp : bodypart_id)
    (hR : ∀ a b, R a b → (decide (a.get_layer > layer1) && a.covers bp) =
      (decide (b.get_layer > layer2) && b.covers bp) ∧ a.type_name = b.type_name)
    (l1 l2 : List item) (h : List.Forall₂ R l1 l2) (acc : Finset String) :
    scan_bad_items_within layer1 bp l1 acc = scan_bad_items_within layer2 bp l2 acc := by
  induction h generalizing acc with
  | nil => rfl
  | cons hab _ ih =>
    unfold scan_bad_items_within
    rw [(hR _ _ hab).1, (hR _ _ hab).2]
    split
    · exact ih _
    · exact ih _

theorem forall₂_getElem? (R : item → item → Prop) (l1 l2 : List item)
    (h : List.Forall₂ R l1 l2) (i : Nat) :
    (l1[i]? = none ∧ l2[i]? = none) ∨ ∃ a b, l1[i]? = some a ∧ l2[i]? = some b ∧ R a b := by
  induction h generalizing i with
  | nil => exact Or.inl ⟨rfl, rfl⟩
  | cons hab _ ih =>
    cases i with
    | zero => exact Or.inr ⟨_, _, List.getElem?_cons_zero, List.getElem?_cons_zero, hab⟩
    | succ i =>
      simp only [List.getElem?_cons_succ]
      exact ih i

/-- The result of `get_item_penalties` depends on the items only through their layer, their
coverage of the wearer's parts, the `SEMITANGIBLE` flag, compactness and their name: two
calls at the same position and query part, on wearers with the same list of body parts whose
wear sequences agree item by item on these, return equal results, whatever else differs
between the items. -/
theorem get_item_penalties_depends_only_on_attributes
    (ic1 ic2 : item → Character → Bool) (c1 c2 : Character) (i : Nat) (q : bodypart_id)
    (hparts : c1.get_all_body_parts = c2.get_all_body_parts)
    (hworn : List.Forall₂ (same_attributes ic1 ic2 c1 c2) c1.worn c2.worn) :
    get_item_penalties ic1 i c1 q = get_item_penalties ic2 i c2 q := by
  rcases forall₂_getElem? _ _ _ hworn i with ⟨h1, h2⟩ | ⟨w1, w2, h1, h2, hw⟩
  · unfold get_item_penalties
    rw [h1, h2]
  · rw [get_item_penalties_eq ic1 i c1 q w1 h1, get_item_penalties_eq ic2 i c2 q w2 h2,
      ← hparts]
    obtain ⟨hl, hc, _, _, _⟩ := hw
    have hstk : ∀ bp ∈ c1.get_all_body_parts,
        stacking_marked ic1 w1 c1 q bp = stacking_marked ic2 w2 c2 q bp := by
      intro bp hbp
      unfold stacking_marked part_evaluated
      have hcount : c1.worn.countP (stacking_pred ic1 w1.get_layer bp c1) =
          c2.worn.countP (stacking_pred ic2 w2.get_layer bp c2) := by
        apply countP_congr_forall₂ _ _ _ _ _ _ hworn
        intro a b hab
        obtain ⟨g1, g2, g3, g4, _⟩ := hab
        unfold stacking_pred
        rw [g1, g2 bp hbp, g3, g4, hl]
      rw [hc bp hbp, hcount]
    have hscan : ∀ bp ∈ c1.get_all_body_parts,
        scan_bad_items_within w1.get_layer bp (c1.worn.take i) ∅ =
          scan_bad_items_within w2.get_layer bp (c2.worn.take i) ∅ := by
      intro bp hbp
      apply scan_congr_forall₂ _ _ _ _ _ _ _ (List.forall₂_take i hworn)
      intro a b hab
      obtain ⟨g1, g2, _, _, g5⟩ := hab
      rw [g1, g2 bp hbp, hl]
      exact ⟨rfl, g5⟩
    have hooo : ∀ bp ∈ c1.get_all_body_parts,
        out_of_order_marked i w1 c1 q bp = out_of_order_marked i w2 c2 q bp := by
      intro bp hbp
      unfold out_of_order_marked part_evaluated
      rw [hc bp hbp, hscan bp hbp]
    have e1 := List.filter_congr hstk
    have e2 := List.filter_congr hooo
    rw [e1, e2]
    congr 4
    apply List.map_congr_left
    intro bp hbp
    exact hscan bp (List.mem_of_mem_filter hbp)

/-- A shirt with another flag and another coverage list for the same part gives the same
penalties as the plain shirt. -/
theorem get_item_penalties_depends_only_on_attributes_witness :
    get_item_penalties is_compact_flag 2 ⟨[coat, shirt, vest], [torso]⟩ torso =
      get_item_penalties is_compact_flag 2 ⟨[coat, hidden_shirt, vest], [torso]⟩ torso :=
  get_item_penalties_depends_only_on_attributes is_compact_flag is_compact_flag
    ⟨[coat, shirt, vest], [torso]⟩ ⟨[coat, hidden_shirt, vest], [torso]⟩ 2 torso rfl
    (List.Forall₂.cons (by decide) (List.Forall₂.cons (by decide)
      (List.Forall₂.cons (by decide) List.Forall₂.nil)))

/-! ### C16 -/

/-- C16 at a failing input: in the wear order `[coat, shirt, vest]` the shirt covers the
torso, shares its layer there with the vest and has the coat of a higher layer before it.
Queried with the null part `num_bp` of the "All" tab it gets nothing listed, while the same
call with the torso as query part lists the torso in both lists. -/
theorem no_filter_query_evaluates_nothing :
    get_item_penalties is_compact_flag 1 ⟨[coat, shirt, vest], [torso]⟩ num_bp =
        some ⟨[], [], ∅⟩ ∧
      get_item_penalties is_compact_flag 1 ⟨[coat, shirt, vest], [torso]⟩ torso =
        some ⟨[torso], [torso], {"coat"}⟩ ∧
      num_bp.is_null = true ∧ shirt.covers torso = true := by
  decide

/-! ### C17 -/

theorem set_var_find (n : item_naming) (key value : String) :
    (n.set_var key value).item_vars.find? (fun kv => kv.1 == key) = some (key, value) := by
  simp [item_naming.set_var, List.find?_cons]

/-- C17: for every item whose "name" variable is set to a string `s`, `get_var( "name" )`
is `s` and `type_name()` returns exactly `s`, for every quantity (a `shotgun_410` named
"Boomstick" has the type name "Boomstick"); and when such an item is worn before the subject
at a higher layer and covers the part `p`, `s` is the name the loop at lines 96-101 of
`get_item_penalties` records for it. -/
theorem custom_name_is_type_name (n : item_naming) (s : String) :
    (n.set_var "name" s).get_var "name" = s ∧
      (∀ quantity, (n.set_var "name" s).type_name quantity = s) ∧
      (shotgun_410.set_var "name" "Boomstick").type_name 1 = "Boomstick" ∧
      ∀ (c : Character) (i j : Nat) (w : item) (layer : layer_level)
        (covered : List bodypart_id) (flags : List flag_id) (p : bodypart_id),
        j < i → c.worn[i]? = some w →
        c.worn[j]? = some (item.of_naming layer covered flags (n.set_var "name" s)) →
        w.get_layer < layer → p ∈ covered →
        s ∈ scan_bad_items_within w.get_layer p (c.worn.take i) ∅ := by
  have hfind := set_var_find n "name" s
  have htn : ∀ quantity, (n.set_var "name" s).type_name quantity = s := by
    intro quantity
    unfold item_naming.type_name
    rw [hfind]
  refine ⟨?_, htn, ?_, ?_⟩
  · unfold item_naming.get_var
    rw [hfind]
  · unfold item_naming.type_name
    rw [set_var_find]
  · intro c i j w layer covered flags p hji _ hj hlt hp
    rw [scan_eq_offender_names, mem_offender_names]
    refine ⟨j, _, hji, hj, hlt, ?_, ?_⟩
    · simp [item.covers, item.of_naming, hp]
    · show (n.set_var "name" s).type_name 1 = s
      exact htn 1

/-! ### C18 -/

/-- C18: for every `item_penalties` value, hence for every result `get_item_penalties` can
return, each call of `body_part_names` made by `draw_mid_pane` passes a non-empty list: no
call ends in the "Asked for names of empty list" branch, every call yields the names, and
there is one call per point of `badness()` unless the function returned before the
penalties. -/
theorem draw_mid_pane_never_asks_for_empty_list (other : bodypart_id → bodypart_id)
    (name_accusative : bodypart_id → Nat → String)
    (enumerate_as_string : List String → String) (returns_early : Bool)
    (penalties : item_penalties) :
    (∀ x ∈ draw_mid_pane_names other name_accusative enumerate_as_string returns_early
        penalties,
      x ≠ .error "Asked for names of empty list" ∧ ∃ names, x = .ok names) ∧
    (returns_early = false →
      (draw_mid_pane_names other name_accusative enumerate_as_string returns_early
        penalties).length = penalties.badness) ∧
    (∀ (is_compact : item → Character → Bool) (i : Nat) (c : Character) (q : bodypart_id),
      get_item_penalties is_compact i c q = some penalties →
      ∀ x ∈ draw_mid_pane_names other name_accusative enumerate_as_string returns_early
          penalties,
        ∃ names, x = .ok names) := by
  obtain ⟨stk, ooo, bad⟩ := penalties
  have hok : ∀ parts : List bodypart_id, parts.isEmpty = false →
      ∃ names, body_part_names other name_accusative enumerate_as_string parts =
        .ok names := by
    intro parts hne
    unfold body_part_names
    rw [hne]
    exact ⟨_, rfl⟩
  have key : ∀ x ∈ draw_mid_pane_names other name_accusative enumerate_as_string
      returns_early ⟨stk, ooo, bad⟩,
      x ≠ .error "Asked for names of empty list" ∧ ∃ names, x = .ok names := by
    intro x hx
    have hx' : ∃ names, x = .ok names := by
      unfold draw_mid_pane_names at hx
      cases returns_early
      · simp only [Bool.false_eq_true, if_false, List.mem_append] at hx
        rcases hx with hx | hx
        · cases hs : stk.isEmpty
          · simp only [hs, Bool.not_false, if_true, List.mem_singleton] at hx
            rw [hx]
            exact hok stk hs
          · simp [hs] at hx
        · cases hs : ooo.isEmpty
          · simp only [hs, Bool.not_false, if_true, List.mem_singleton] at hx
            rw [hx]
            exact hok ooo hs
          · simp [hs] at hx
      · simp at hx
    obtain ⟨names, rfl⟩ := hx'
    exact ⟨(fun h => by cases h), names, rfl⟩
  refine ⟨key, ?_, fun _ _ _ _ _ x hx => (key x hx).2⟩
  intro hre
  subst hre
  cases stk <;> cases ooo <;> simp [draw_mid_pane_names, item_penalties.badness]

/-! ### C19 -/

theorem flag_line_length (worn_item : item) (f : flag_id) (text : String) :
    (flag_line worn_item f text).length ≤ 1 := by
  unfold flag_line
  split <;> simp

theorem mem_flag_line (worn_item : item) (f : flag_id) (text x : String) :
    x ∈ flag_line worn_item f text → x = text := by
  unfold flag_line
  split <;> simp

/-- C19: for every item, whatever its flags, `clothing_flags_description` returns at most
13 lines (at most 12, in fact), and never both "It fits you well." and
"It could be refitted.". -/
theorem clothing_flags_description_bounds (worn_item : item) :
    (clothing_flags_description worn_item).length ≤ 13 ∧
      (clothing_flags_description worn_item).length ≤ 12 ∧
      ¬("It fits you well." ∈ clothing_flags_description worn_item ∧
        "It could be refitted." ∈ clothing_flags_description worn_item) := by
  have hlen : (clothing_flags_description worn_item).length ≤ 12 := by
    unfold clothing_flags_description
    simp only [List.length_append]
    have h0 : (if worn_item.has_flag flag_id.FIT = true then ["It fits you well."]
        else if worn_item.has_flag flag_id.VARSIZE = true then ["It could be refitted."]
        else []).length ≤ 1 := by
      split
      · simp
      · split <;> simp
    have h1 := flag_line_length worn_item flag_id.HOOD "It has a hood."
    have h2 := flag_line_length worn_item flag_id.POCKETS "It has pockets."
    have h3 := flag_line_length worn_item flag_id.WATERPROOF "It is waterproof."
    have h4 := flag_line_length worn_item flag_id.WATER_FRIENDLY "It is water friendly."
    have h5 := flag_line_length worn_item flag_id.FANCY "It looks fancy."
    have h6 := flag_line_length worn_item flag_id.SUPER_FANCY "It looks really fancy."
    have h7 := flag_line_length worn_item flag_id.FLOTATION "You will not drown today."
    have h8 := flag_line_length worn_item flag_id.OVERSIZE "It is very bulky."
    have h9 := flag_line_length worn_item flag_id.SWIM_GOGGLES
      "It helps you to see clearly underwater."
    have h10 := flag_line_length worn_item flag_id.SEMITANGIBLE
      "It can occupy the same space as other things."
    have h11 := flag_line_length worn_item flag_id.COMPACT
      "It won't encumber you when worn with other things."
    omega
  refine ⟨by omega, hlen, ?_⟩
  rintro ⟨hfit, hvar⟩
  unfold clothing_flags_description at hfit hvar
  simp only [List.mem_append] at hfit hvar
  have nofit : ∀ f text, text ≠ "It fits you well." →
      "It fits you well." ∉ flag_line worn_item f text :=
    fun f text hne hm => hne (mem_flag_line worn_item f text _ hm).symm
  have novar : ∀ f text, text ≠ "It could be refitted." →
      "It could be refitted." ∉ flag_line worn_item f text :=
    fun f text hne hm => hne (mem_flag_line worn_item f text _ hm).symm
  have hfit' : "It fits you well." ∈
      (if worn_item.has_flag flag_id.FIT = true then ["It fits you well."]
        else if worn_item.has_flag flag_id.VARSIZE = true then ["It could be refitted."]
        else []) := by
    rcases hfit with ((((((((((( h | h) | h) | h) | h) | h) | h) | h) | h) | h) | h) | h)
    · exact h
    all_goals exact absurd h (nofit _ _ (by decide))
  have hvar' : "It could be refitted." ∈
      (if worn_item.has_flag flag_id.FIT = true then ["It fits you well."]
        else if worn_item.has_flag flag_id.VARSIZE = true then ["It could be refitted."]
        else []) := by
    rcases hvar with ((((((((((( h | h) | h) | h) | h) | h) | h) | h) | h) | h) | h) | h)
    · exact h
    all_goals exact absurd h (novar _ _ (by decide))
  by_cases hF : worn_item.has_flag flag_id.FIT = true
  · rw [if_pos hF] at hvar'
    exact absurd (List.mem_singleton.mp hvar') (by decide)
  · rw [if_neg hF] at hfit'
    split at hfit'
    · exact absurd (List.mem_singleton.mp hfit') (by decide)
    · simp at hfit'

/-! ### C20 -/

theorem sort_armor_pairwise (worn : List item) :
    (sort_armor worn).Pairwise (fun a b => a.get_layer ≤ b.get_layer) := by
  induction worn with
  | nil => exact List.Pairwise.nil
  | cons x xs ih => exact stable_insert_sorted x _ ih

/-- C20: after the `SORT_ARMOR` action no worn item has an out-of-order penalty: at every
position of the sorted sequence and for every query part `get_item_penalties` returns an
empty out-of-order list and an empty `bad_items_within`, so `badness()` is at most 1. -/
theorem sorted_has_no_out_of_order_penalty (is_compact : item → Character → Bool)
    (u : layers_ui) (parts : List bodypart_id) (i : Nat) (q : bodypart_id)
    (hi : i < (handle_SORT_ARMOR u).worn.length) :
    ∃ r, get_item_penalties is_compact i ⟨(handle_SORT_ARMOR u).worn, parts⟩ q = some r ∧
      r.body_parts_with_out_of_order_penalty = [] ∧ r.bad_items_within = ∅ ∧
      r.badness ≤ 1 := by
  have hsorted : ((handle_SORT_ARMOR u).worn).Pairwise
      (fun a b => a.get_layer ≤ b.get_layer) := sort_armor_pairwise u.worn
  generalize (handle_SORT_ARMOR u).worn = worn at hi hsorted
  have hw : worn[i]? = some worn[i] := List.getElem?_eq_getElem hi
  have hnone : ∀ p, offender_names ⟨worn, parts⟩ i worn[i].get_layer p = ∅ := by
    intro p
    by_contra hne
    obtain ⟨j, a, hji, hj, hlt, _⟩ := (offender_names_nonempty_iff _ i _ p).mp hne
    obtain ⟨hjl, rfl⟩ := List.getElem?_eq_some_iff.mp hj
    have := (List.pairwise_iff_getElem.mp hsorted) j i hjl hi hji
    exact absurd hlt (Nat.not_lt.mpr this)
  have hooo : parts.filter (out_of_order_marked i worn[i] ⟨worn, parts⟩ q) = [] := by
    rw [List.filter_eq_nil_iff]
    intro p _ hp
    exact ((out_of_order_marked_iff i worn[i] ⟨worn, parts⟩ q p).mp hp).2 (hnone p)
  have hres := get_item_penalties_eq is_compact i ⟨worn, parts⟩ q worn[i] hw
  refine ⟨_, hres, hooo, ?_, ?_⟩
  · show (intersect_loop ((parts.filter _).map _)).headD ∅ = ∅
    rw [hooo]
    rfl
  · show item_penalties.badness ⟨_, parts.filter _, _⟩ ≤ 1
    rw [hooo]
    unfold item_penalties.badness
    simp only [List.isEmpty_nil, Bool.not_true, Bool.toNat_false, Nat.add_zero]
    exact Bool.toNat_le _

/-- Witness for C20: in the wear order `[shirt, coat, vest]` the vest at position 2 has an
out-of-order penalty on the torso because of the coat before it.  `SORT_ARMOR` makes the
order `[shirt, vest, coat]`, and there the vest at position 1, after the shirt, and the coat
at position 2, after the shirt and the vest, have none. -/
theorem sorted_has_no_out_of_order_penalty_witness :
    get_item_penalties is_compact_flag 2 ⟨screen_of_three.ui.worn, [torso]⟩ torso =
        some ⟨[torso], [torso], {"coat"}⟩ ∧
      (handle_SORT_ARMOR screen_of_three.ui).worn = [shirt, vest, coat] ∧
      (∃ r, get_item_penalties is_compact_flag 1
          ⟨(handle_SORT_ARMOR screen_of_three.ui).worn, [torso]⟩ torso = some r ∧
        r.body_parts_with_out_of_order_penalty = [] ∧ r.bad_items_within = ∅ ∧
        r.badness ≤ 1) ∧
      ∃ r, get_item_penalties is_compact_flag 2
          ⟨(handle_SORT_ARMOR screen_of_three.ui).worn, [torso]⟩ torso = some r ∧
        r.body_parts_with_out_of_order_penalty = [] ∧ r.bad_items_within = ∅ ∧
        r.badness ≤ 1 :=
  ⟨by decide, by decide,
    sorted_has_no_out_of_order_penalty is_compact_flag screen_of_three.ui [torso] 1 torso
      (by decide),
    sorted_has_no_out_of_order_penalty is_compact_flag screen_of_three.ui [torso] 2 torso
      (by decide)⟩

/-! ### C21 -/

theorem part_evaluated_of_not_skipped (w : item) (q bp : bodypart_id)
    (hq : ¬query_skipped q) : part_evaluated w q bp = w.covers bp := by
  cases hc : w.covers bp
  · cases h : part_evaluated w q bp
    · rfl
    · have := ((part_evaluated_iff w q bp).mp h).2
      rw [hc] at this
      cases this
  · exact (part_evaluated_iff w q bp).mpr ⟨hq, hc⟩

theorem part_evaluated_of_skipped (w : item) (q bp : bodypart_id)
    (hq : query_skipped q) : part_evaluated w q bp = false := by
  cases h : part_evaluated w q bp
  · rfl
  · exact absurd hq ((part_evaluated_iff w q bp).mp h).1

/-- C21: the result of `get_item_penalties` does not depend on which body part is queried:
for any two query parts `q1` and `q2` neither of which satisfies the skip condition
(non-zero token together with a null id) the two calls return the same result, at every
position and for every wearer; and for a query part that does satisfy the skip condition
every valid position gets three empty collections. -/
theorem result_independent_of_query (is_compact : item → Character → Bool) (i : Nat)
    (c : Character) :
    (∀ q1 q2, ¬query_skipped q1 → ¬query_skipped q2 →
      get_item_penalties is_compact i c q1 = get_item_penalties is_compact i c q2) ∧
    (∀ q, query_skipped q → i < c.worn.length →
      get_item_penalties is_compact i c q = some ⟨[], [], ∅⟩) := by
  constructor
  · intro q1 q2 h1 h2
    cases hw : c.worn[i]? with
    | none =>
      unfold get_item_penalties
      rw [hw]
    | some w =>
      rw [get_item_penalties_eq is_compact i c q1 w hw,
        get_item_penalties_eq is_compact i c q2 w hw]
      have hs : stacking_marked is_compact w c q1 = stacking_marked is_compact w c q2 := by
        funext bp
        unfold stacking_marked
        rw [part_evaluated_of_not_skipped w q1 bp h1, part_evaluated_of_not_skipped w q2 bp h2]
      have ho : out_of_order_marked i w c q1 = out_of_order_marked i w c q2 := by
        funext bp
        unfold out_of_order_marked
        rw [part_evaluated_of_not_skipped w q1 bp h1, part_evaluated_of_not_skipped w q2 bp h2]
      rw [hs, ho]
  · intro q hq hi
    have hw : c.worn[i]? = some c.worn[i] := List.getElem?_eq_getElem hi
    rw [get_item_penalties_eq is_compact i c q _ hw]
    have hs : c.get_all_body_parts.filter (stacking_marked is_compact c.worn[i] c q) = [] := by
      rw [List.filter_eq_nil_iff]
      intro bp _ hbp
      unfold stacking_marked at hbp
      rw [part_evaluated_of_skipped _ q bp hq] at hbp
      simp at hbp
    have ho : c.get_all_body_parts.filter (out_of_order_marked i c.worn[i] c q) = [] := by
      rw [List.filter_eq_nil_iff]
      intro bp _ hbp
      unfold out_of_order_marked at hbp
      rw [part_evaluated_of_skipped _ q bp hq] at hbp
      simp at hbp
    rw [hs, ho]
    rfl

/-! ### C23 -/

/-- C23 at a failing input: the wearer wears nothing, so after the rebuild the filtered list
is empty and `leftListIndex` is 0, which is not below `leftListSize`.  `TOGGLE_CLOTH` reads
`tmp_worn[0]` all the same and the iteration has no defined outcome, while `CHANGE_SIDE`,
`REMOVE_ARMOR` and `EQUIP_ARMOR_HERE` test the list first and go on. -/
theorem toggle_cloth_reads_empty_list :
    (rebuild_tmp_worn screen_nothing_worn.ui torso).leftListIndex = 0 ∧
      (rebuild_tmp_worn screen_nothing_worn.ui torso).leftListSize = 0 ∧
      (rebuild_tmp_worn screen_nothing_worn.ui torso).tmp_worn = [] ∧
      loop_iteration (config_of wearer_kind.avatar) (idle_input "TOGGLE_CLOTH")
        screen_nothing_worn = .undefined ∧
      loop_iteration (config_of wearer_kind.avatar) (idle_input "CHANGE_SIDE")
        screen_nothing_worn = .next screen_nothing_worn ∧
      loop_iteration (config_of wearer_kind.avatar) (idle_input "REMOVE_ARMOR")
        screen_nothing_worn = .next screen_nothing_worn ∧
      loop_iteration (config_of wearer_kind.avatar) (failed_equip_input "EQUIP_ARMOR_HERE")
        screen_nothing_worn = .next screen_nothing_worn := by
  decide

/-! ### C24 -/

/-- C24: after the left-list offset clamp at the start of a redraw, whenever
`leftListLines >= 1` and `leftListIndex >= 0`, the cursor row is inside the visible window,
`leftListOffset <= leftListIndex < leftListOffset + leftListLines`, the clamp leaves
`leftListIndex` and `leftListLines` as they were, and a `leftListOffset` that was
non-negative before the clamp is non-negative after it. -/
theorem redraw_keeps_cursor_visible (u : layers_ui) (hl : 1 ≤ u.leftListLines)
    (hi : 0 ≤ u.leftListIndex) :
    (on_redraw_left u).leftListOffset ≤ (on_redraw_left u).leftListIndex ∧
      (on_redraw_left u).leftListIndex <
        (on_redraw_left u).leftListOffset + (on_redraw_left u).leftListLines ∧
      (on_redraw_left u).leftListIndex = u.leftListIndex ∧
      (on_redraw_left u).leftListLines = u.leftListLines ∧
      (0 ≤ u.leftListOffset → 0 ≤ (on_redraw_left u).leftListOffset) := by
  unfold on_redraw_left
  dsimp only
  split_ifs <;> (try dsimp only at *) <;> refine ⟨?_, ?_, rfl, rfl, ?_⟩ <;> omega

/-- Witness for C24: a cursor on row 7 of 12 with a window of 3 lines that starts at row 0
ends up inside the window. -/
theorem redraw_keeps_cursor_visible_witness :
    (on_redraw_left ⟨[], 0, 7, 0, -1, 3, 12, []⟩).leftListOffset ≤ 7 ∧
      (7 : Int) < (on_redraw_left ⟨[], 0, 7, 0, -1, 3, 12, []⟩).leftListOffset + 3 := by
  have h := redraw_keeps_cursor_visible ⟨[], 0, 7, 0, -1, 3, 12, []⟩ (by decide) (by decide)
  rw [h.2.2.1, h.2.2.2.1] at h
  exact ⟨h.1, h.2.1⟩

/-! ### C25 -/

/-- C25: at every valid subject position, every body part listed in
`body_parts_with_stacking_penalty` or `body_parts_with_out_of_order_penalty` is covered by
the subject item, each list follows the order of `get_all_body_parts` (it is a subsequence
of it), and no part is listed twice when `get_all_body_parts` has no duplicates. -/
theorem penalty_lists_covered_and_ordered (is_compact : item → Character → Bool) (i : Nat)
    (c : Character) (q : bodypart_id) (hi : i < c.worn.length) :
    ∃ r w, get_item_penalties is_compact i c q = some r ∧ c.worn[i]? = some w ∧
      (∀ p ∈ r.body_parts_with_stacking_penalty, w.covers p = true) ∧
      (∀ p ∈ r.body_parts_with_out_of_order_penalty, w.covers p = true) ∧
      r.body_parts_with_stacking_penalty.Sublist c.get_all_body_parts ∧
      r.body_parts_with_out_of_order_penalty.Sublist c.get_all_body_parts ∧
      (c.get_all_body_parts.Nodup →
        r.body_parts_with_stacking_penalty.Nodup ∧
          r.body_parts_with_out_of_order_penalty.Nodup) := by
  have hw : c.worn[i]? = some c.worn[i] := List.getElem?_eq_getElem hi
  refine ⟨_, c.worn[i], get_item_penalties_eq is_compact i c q _ hw, hw, ?_, ?_,
    List.filter_sublist _, List.filter_sublist _, ?_⟩
  · intro p hp
    exact ((stacking_marked_iff is_compact _ c q p).mp (List.mem_filter.mp hp).2).1.2
  · intro p hp
    exact ((out_of_order_marked_iff i _ c q p).mp (List.mem_filter.mp hp).2).1.2
  · intro hnd
    exact ⟨hnd.filter _, hnd.filter _⟩

/-- Witness for C25: the hoodie of `[parka, hoodie, jumpsuit]`, whose lists are
`[torso, head]`. -/
theorem penalty_lists_covered_and_ordered_witness :
    ∃ r, get_item_penalties is_compact_flag 1 ⟨[parka, hoodie, jumpsuit], [torso, head]⟩
        torso = some r ∧
      (∀ p ∈ r.body_parts_with_stacking_penalty, hoodie.covers p = true) ∧
      r.body_parts_with_out_of_order_penalty.Sublist [torso, head] := by
  obtain ⟨r, w, hr, hw, h1, _, _, h4, _⟩ :=
    penalty_lists_covered_and_ordered is_compact_flag 1
      ⟨[parka, hoodie, jumpsuit], [torso, head]⟩ torso (by decide)
  have hw' : w = hoodie := (Option.some.inj (hw.symm.trans rfl)).symm ▸ rfl
  subst hw'
  exact ⟨r, hr, h1, h4⟩

/-! ### C22 -/

theorem build_tmp_worn_part_congr (bp : bodypart_id) (l l' : List item) (i : Nat)
    (h : l.map (fun it => it.covers bp) = l'.map (fun it => it.covers bp)) :
    build_tmp_worn_part bp l i = build_tmp_worn_part bp l' i := by
  induction l generalizing l' i with
  | nil =>
    cases l' with
    | nil => rfl
    | cons y ys => simp at h
  | cons x xs ih =>
    cases l' with
    | nil => simp at h
    | cons y ys =>
      simp only [List.map_cons, List.cons.injEq] at h
      unfold build_tmp_worn_part
      rw [h.1, ih ys (i + 1) h.2]

theorem build_tmp_worn_part_covers (bp : bodypart_id) (l : List item) (i x : Nat)
    (hx : x ∈ build_tmp_worn_part bp l i) :
    i ≤ x ∧ ∃ it, l[x - i]? = some it ∧ it.covers bp = true := by
  induction l generalizing i with
  | nil => simp [build_tmp_worn_part] at hx
  | cons y ys ih =>
    unfold build_tmp_worn_part at hx
    have step : x ∈ build_tmp_worn_part bp ys (i + 1) →
        i ≤ x ∧ ∃ it, (y :: ys)[x - i]? = some it ∧ it.covers bp = true := by
      intro h
      obtain ⟨h1, it, h2, h3⟩ := ih (i + 1) h
      refine ⟨by omega, it, ?_, h3⟩
      have : x - i = (x - (i + 1)) + 1 := by omega
      rw [this, List.getElem?_cons_succ]
      exact h2
    split at hx
    · rename_i hc
      rcases List.mem_cons.mp hx with h | h
      · subst h
        exact ⟨le_refl _, y, by simp, hc⟩
      · exact step h
    · exact step hx

/-- Exchanging two items that both cover the tab's part (or any two items on the "All"
tab) leaves the rebuilt `tmp_worn` as it was. -/
theorem rebuild_tmp_worn_after_swap (s : layers_ui) (bp : bodypart_id) (a b : Nat)
    (ha : a ∈ (rebuild_tmp_worn s bp).tmp_worn) (hb : b ∈ (rebuild_tmp_worn s bp).tmp_worn)
    (hla : a < s.worn.length) (hlb : b < s.worn.length) (s1 : layers_ui)
    (hw : s1.worn = (s.worn.set a s.worn[b]).set b s.worn[a]) :
    (rebuild_tmp_worn s1 bp).tmp_worn = (rebuild_tmp_worn s bp).tmp_worn := by
  unfold rebuild_tmp_worn at ha hb ⊢
  dsimp only at ha hb ⊢
  cases hn : bp.is_null
  · simp only [hn, Bool.false_eq_true, if_false] at ha hb ⊢
    obtain ⟨_, ita, ha1, ha2⟩ := build_tmp_worn_part_covers bp s.worn 0 a ha
    obtain ⟨_, itb, hb1, hb2⟩ := build_tmp_worn_part_covers bp s.worn 0 b hb
    rw [Nat.sub_zero, List.getElem?_eq_getElem hla] at ha1
    rw [Nat.sub_zero, List.getElem?_eq_getElem hlb] at hb1
    cases ha1
    cases hb1
    apply build_tmp_worn_part_congr
    rw [hw, List.map_set, List.map_set]
    apply List.ext_getElem?
    intro k
    rw [List.getElem?_set, List.getElem?_set]
    by_cases hkb : b = k
    · subst hkb
      rw [if_pos rfl, if_pos (by simpa using hlb), List.getElem?_map,
        List.getElem?_eq_getElem hlb, Option.map_some', ha2, hb2]
    · rw [if_neg hkb]
      by_cases hka : a = k
      · subst hka
        rw [if_pos rfl, if_pos (by simpa using hla), List.getElem?_map,
          List.getElem?_eq_getElem hla, Option.map_some', ha2, hb2]
      · rw [if_neg hka]
  · simp only [hn, if_true] at ha hb ⊢
    rw [build_tmp_worn_all_eq, build_tmp_worn_all_eq, hw]
    simp

theorem shift_selected_item_eq (u : layers_ui) (a b : Nat) (hsel : 0 ≤ u.selected)
    (hidx : 0 ≤ u.leftListIndex)
    (ha : u.tmp_worn[u.selected.toNat]? = some a)
    (hb : u.tmp_worn[u.leftListIndex.toNat]? = some b)
    (hla : a < u.worn.length) (hlb : b < u.worn.length) :
    ∃ s1, shift_selected_item u = some s1 ∧
      s1.worn = (u.worn.set a u.worn[b]).set b u.worn[a] ∧
      s1.selected = u.leftListIndex ∧ s1.leftListIndex = u.leftListIndex := by
  have hpos : shift_positions u = some (a, b) := by
    unfold shift_positions access_tmp_worn
    rw [if_pos hsel, if_pos hidx, ha, hb]
  unfold shift_selected_item
  rw [if_pos hsel, hpos]
  simp only [List.getElem?_eq_getElem hla, List.getElem?_eq_getElem hlb]
  exact ⟨_, rfl, rfl, rfl, rfl⟩

/-- The grabbed item after the cursor has moved to any row of the list, the exchange has
been made and `tmp_worn` has been rebuilt. -/
theorem grabbed_item_after_move (s u : layers_ui) (bp : bodypart_id)
    (htmp : s.tmp_worn = (rebuild_tmp_worn s bp).tmp_worn)
    (hsize : s.leftListSize = (s.tmp_worn.length : Int))
    (hsel0 : 0 ≤ s.selected) (hsel1 : s.selected < s.leftListSize)
    (huw : u.worn = s.worn) (hut : u.tmp_worn = s.tmp_worn) (hus : u.selected = s.selected)
    (hi0 : 0 ≤ u.leftListIndex) (hi1 : u.leftListIndex < s.leftListSize) :
    ∃ (a : Nat) (G : item) (s1 : layers_ui),
      access_item s s.selected = some (a, G) ∧ shift_selected_item u = some s1 ∧
      (∃ pos, access_item (rebuild_tmp_worn s1 bp) (rebuild_tmp_worn s1 bp).leftListIndex =
        some (pos, G)) ∧
      (rebuild_tmp_worn s1 bp).selected = (rebuild_tmp_worn s1 bp).leftListIndex ∧
      (rebuild_tmp_worn s1 bp).tmp_worn = s.tmp_worn ∧
      (rebuild_tmp_worn s1 bp).leftListSize = s.leftListSize := by
  have hbound : ∀ x ∈ s.tmp_worn, x < s.worn.length := by
    rw [htmp]
    exact rebuild_tmp_worn_bound s bp
  have hr1 : s.selected.toNat < s.tmp_worn.length := by omega
  have hr2 : u.leftListIndex.toNat < s.tmp_worn.length := by omega
  have hma : s.tmp_worn[s.selected.toNat] ∈ s.tmp_worn := List.getElem_mem hr1
  have hmb : s.tmp_worn[u.leftListIndex.toNat] ∈ s.tmp_worn := List.getElem_mem hr2
  have hla := hbound _ hma
  have hlb := hbound _ hmb
  obtain ⟨s1, hs1, hw1, hsel1', hidx1⟩ :=
    shift_selected_item_eq u s.tmp_worn[s.selected.toNat] s.tmp_worn[u.leftListIndex.toNat]
      (by rw [hus]; exact hsel0) hi0
      (by rw [hus, hut]; exact List.getElem?_eq_getElem hr1)
      (by rw [hut]; exact List.getElem?_eq_getElem hr2)
      (by rw [huw]; exact hla) (by rw [huw]; exact hlb)
  simp only [huw] at hw1
  have hreb : (rebuild_tmp_worn s1 bp).tmp_worn = s.tmp_worn := by
    rw [htmp]
    exact rebuild_tmp_worn_after_swap s bp _ _ (htmp ▸ hma) (htmp ▸ hmb) hla hlb s1 hw1
  have hsz : (rebuild_tmp_worn s1 bp).leftListSize = s.leftListSize := by
    rw [rebuild_tmp_worn_size, hreb, hsize]
  have hidx : (rebuild_tmp_worn s1 bp).leftListIndex = u.leftListIndex := by
    have h1 : (rebuild_tmp_worn s1 bp).leftListIndex =
        min s1.leftListIndex (max 0 ((rebuild_tmp_worn s1 bp).leftListSize - 1)) := rfl
    rw [h1, hsz, hidx1]
    omega
  refine ⟨s.tmp_worn[s.selected.toNat], s.worn[s.tmp_worn[s.selected.toNat]], s1, ?_, hs1,
    ⟨s.tmp_worn[u.leftListIndex.toNat], ?_⟩, ?_, hreb, hsz⟩
  · unfold access_item access_tmp_worn
    rw [if_pos hsel0, List.getElem?_eq_getElem hr1]
    simp only [List.getElem?_eq_getElem hla]
  · unfold access_item access_tmp_worn
    rw [hidx, if_pos hi0, hreb, List.getElem?_eq_getElem hr2]
    have hworn : (rebuild_tmp_worn s1 bp).worn = s1.worn := rfl
    simp only [hworn, hw1]
    rw [List.getElem?_set_self (by simpa using hlb)]
  · rw [hidx]
    exact hsel1'

/-- C22: with an item grabbed and `selected == leftListIndex` on a non-empty list, after an
`UP` or `DOWN` action and the rebuild of `tmp_worn` at the next loop iteration, the grabbed
item is the one shown at the cursor (`worn[tmp_worn[leftListIndex]]` is the grabbed item),
`selected == leftListIndex` again, and the filtered list has the same length and the same
worn indices as before. -/
theorem grabbed_item_follows_cursor (u0 : layers_ui) (bp : bodypart_id)
    (hgrab : 0 ≤ (on_redraw_left (rebuild_tmp_worn u0 bp)).selected)
    (hcur : (on_redraw_left (rebuild_tmp_worn u0 bp)).selected =
      (on_redraw_left (rebuild_tmp_worn u0 bp)).leftListIndex)
    (hne : 0 < (on_redraw_left (rebuild_tmp_worn u0 bp)).leftListSize) :
    ∃ (a : Nat) (G : item),
      access_item (on_redraw_left (rebuild_tmp_worn u0 bp))
        (on_redraw_left (rebuild_tmp_worn u0 bp)).leftListIndex = some (a, G) ∧
      (∃ s1, handle_UP (on_redraw_left (rebuild_tmp_worn u0 bp)) = some s1 ∧
        (∃ pos, access_item (rebuild_tmp_worn s1 bp) (rebuild_tmp_worn s1 bp).leftListIndex =
          some (pos, G)) ∧
        (rebuild_tmp_worn s1 bp).selected = (rebuild_tmp_worn s1 bp).leftListIndex ∧
        (rebuild_tmp_worn s1 bp).tmp_worn =
          (on_redraw_left (rebuild_tmp_worn u0 bp)).tmp_worn ∧
        (rebuild_tmp_worn s1 bp).leftListSize =
          (on_redraw_left (rebuild_tmp_worn u0 bp)).leftListSize) ∧
      (∃ s1, handle_DOWN (on_redraw_left (rebuild_tmp_worn u0 bp)) = some s1 ∧
        (∃ pos, access_item (rebuild_tmp_worn s1 bp) (rebuild_tmp_worn s1 bp).leftListIndex =
          some (pos, G)) ∧
        (rebuild_tmp_worn s1 bp).selected = (rebuild_tmp_worn s1 bp).leftListIndex ∧
        (rebuild_tmp_worn s1 bp).tmp_worn =
          (on_redraw_left (rebuild_tmp_worn u0 bp)).tmp_worn ∧
        (rebuild_tmp_worn s1 bp).leftListSize =
          (on_redraw_left (rebuild_tmp_worn u0 bp)).leftListSize) := by
  obtain ⟨f1, f2, f3, f4, f5, _, _⟩ := on_redraw_left_fields (rebuild_tmp_worn u0 bp)
  have htmp : (on_redraw_left (rebuild_tmp_worn u0 bp)).tmp_worn =
      (rebuild_tmp_worn (on_redraw_left (rebuild_tmp_worn u0 bp)) bp).tmp_worn := by
    have h1 : (rebuild_tmp_worn (on_redraw_left (rebuild_tmp_worn u0 bp)) bp).tmp_worn =
        (if bp.is_null then
          build_tmp_worn_all (on_redraw_left (rebuild_tmp_worn u0 bp)).worn 0
        else build_tmp_worn_part bp (on_redraw_left (rebuild_tmp_worn u0 bp)).worn 0) := rfl
    rw [h1, f1, f2]
    rfl
  have hsize : (on_redraw_left (rebuild_tmp_worn u0 bp)).leftListSize =
      ((on_redraw_left (rebuild_tmp_worn u0 bp)).tmp_worn.length : Int) := by
    rw [f5, f2]
    exact rebuild_tmp_worn_size u0 bp
  have hlt : (on_redraw_left (rebuild_tmp_worn u0 bp)).leftListIndex <
      (on_redraw_left (rebuild_tmp_worn u0 bp)).leftListSize := by
    rw [f4, f5]
    exact rebuild_tmp_worn_index_lt u0 bp (by rw [← f5]; exact hne)
  generalize on_redraw_left (rebuild_tmp_worn u0 bp) = s at *
  have hi0 : 0 ≤ s.leftListIndex := hcur ▸ hgrab
  obtain ⟨c1, c2, c3, _⟩ := cursor_up_frame s
  obtain ⟨d1, d2, d3, _⟩ := cursor_down_frame s
  obtain ⟨ru0, ru1⟩ := cursor_up_index_range s hi0 hlt
  obtain ⟨rd0, rd1⟩ := cursor_down_index_range s hi0 hlt
  obtain ⟨a, G, s1, hacc, hsh, hG, hsel, ht, hz⟩ :=
    grabbed_item_after_move s (cursor_up s) bp htmp hsize hgrab (by rw [hcur]; exact hlt)
      c1 c3 c2 ru0 ru1
  obtain ⟨a', G', s1', hacc', hsh', hG', hsel', ht', hz'⟩ :=
    grabbed_item_after_move s (cursor_down s) bp htmp hsize hgrab (by rw [hcur]; exact hlt)
      d1 d3 d2 rd0 rd1
  have hsame : (a', G') = (a, G) := Option.some.inj (hacc'.symm.trans hacc)
  obtain ⟨rfl, rfl⟩ := Prod.mk.inj hsame
  refine ⟨a', G', by rw [← hcur]; exact hacc, ⟨s1, ?_, hG, hsel, ht, hz⟩,
    ⟨s1', ?_, hG', hsel', ht', hz'⟩⟩
  · unfold handle_UP
    rw [if_pos hne]
    exact hsh
  · unfold handle_DOWN
    rw [if_pos hne]
    exact hsh'

/-- Witness for C22: on the torso tab with the hoodie grabbed on the second row, `UP`
brings the hoodie to the first row, where the cursor and the grab now are. -/
theorem grabbed_item_follows_cursor_witness :
    ∃ (s1 : layers_ui) (pos : Nat),
      handle_UP (on_redraw_left (rebuild_tmp_worn torso_tab_grabbed torso)) = some s1 ∧
      access_item (rebuild_tmp_worn s1 torso) (rebuild_tmp_worn s1 torso).leftListIndex =
        some (pos, hoodie) ∧
      (rebuild_tmp_worn s1 torso).selected = (rebuild_tmp_worn s1 torso).leftListIndex ∧
      (rebuild_tmp_worn s1 torso).tmp_worn = [0, 2] := by
  obtain ⟨a, G, hacc, ⟨s1, h1, ⟨pos, h2⟩, h3, h4, _⟩, _⟩ :=
    grabbed_item_follows_cursor torso_tab_grabbed torso (by decide) (by decide) (by decide)
  have hG : (a, G) = (2, hoodie) := Option.some.inj (hacc.symm.trans (by decide))
  obtain ⟨rfl, rfl⟩ := Prod.mk.inj hG
  exact ⟨s1, pos, h1, h2, h3, h4.trans (by decide)⟩

end ArmorLayers
